import Mathlib

/-!
# Inference sampling loops of `ei_run_impulse.cpp`

A shallow embedding of the four sampling loops of `src/ei_run_impulse.cpp`
(accelerometer `run_nn`, microphone `run_nn`, microphone `run_nn_continuous`,
camera `run_nn`) and of the accelerometer sample callback.

The firmware collaborators (sensor drivers, classifier, sleep, stop flag, ...)
are not part of the file.  They are modelled as an environment `Env` of answer
streams: the `k`-th call of a collaborator receives the `k`-th answer of its
stream.  A run of a function is the list of the calls it makes and of the
messages it prints, in program order, together with the way it ended.  The
loops can run forever, so they take a bound on the number of rounds.
-/

set_option linter.unusedVariables false
set_option linter.unnecessarySeqFocus false

namespace EiRunImpulse

/-! ## Observable events -/

/-- Value a call hands back to the code.  `unit` stands for a `void` function
and for a result the code discards. -/
inductive Val
  | unit
  | bool (b : Bool)
  | status (code : Int)
  deriving DecidableEq

/-- Call sites of the collaborators.  `ei_sleep` and `ei_user_invoke_stop` are
split by call site: `ei_sleep_delay` is `ei_sleep(delay_ms)` at the top of a
round, `ei_sleep_100` is `ei_sleep(100)` next to a baud-rate switch,
`ei_user_invoke_stop_before` is the check in front of the acquisition
(lines 91, 169) and `ei_user_invoke_stop_after` the check that follows the
predictions (lines 130, 207, 279, 418). -/
inductive Fn
  | ei_inertial_sample_start
  | ei_sleep_delay
  | ei_sleep_100
  | ei_user_invoke_stop_before
  | ei_user_invoke_stop_after
  | set_state_idle
  | ei_read_timer_ms
  | ei_inertial_read_data
  | signal_from_buffer
  | run_classifier
  | run_classifier_init
  | run_classifier_continuous
  | ei_microphone_inference_start
  | ei_microphone_inference_reset_buffers
  | ei_microphone_inference_record
  | ei_microphone_inference_end
  | ei_camera_init
  | ei_camera_capture
  | ei_camera_deinit
  | set_max_data_output_baudrate
  | set_default_data_output_baudrate
  | ei_malloc
  | encode_bw_signal_as_jpg
  | base64_encode
  | ei_free
  deriving DecidableEq

/-- Messages printed with `ei_printf`.  `settings` is the block of settings
lines at the start of a run, `predictions` is the predictions report (the
header line and the label, bounding box and anomaly lines under it). -/
inductive Msg
  | settings
  | starting_inferencing
  | starting_in_seconds
  | stopped_by_user
  | sampling
  | err_signal_from_buffer
  | failed_run_impulse
  | predictions
  | err_frequency
  | err_audio_setup
  | recording
  | err_record_audio
  | recording_done
  | err_run_classifier
  | warn_color_model
  | err_camera_init
  | ok
  | taking_photo
  | failed_capture
  | err_alloc_jpg
  | begin_output
  | failed_encode_jpeg
  | framebuffer
  | crlf
  | end_output
  deriving DecidableEq

/-- One observable step of a run. -/
inductive Event
  | call (f : Fn) (ret : Val)
  | print (m : Msg)
  deriving DecidableEq

/-- The status `EI_IMPULSE_OK` of the classifier SDK. -/
def EI_IMPULSE_OK : Int := 0

/-! ## Configuration and environment -/

/-- One entry of `ei_dsp_blocks`, reduced to what `run_nn` looks at. -/
structure DspBlock where
  is_image_block : Bool
  grayscale : Bool

/-- Constants of `model_metadata.h` that the control flow depends on. -/
structure Config where
  EI_CLASSIFIER_FREQUENCY : Int
  EI_CLASSIFIER_SLICES_PER_MODEL_WINDOW : Nat
  EI_CLASSIFIER_RAW_SAMPLE_COUNT : Nat
  EI_CLASSIFIER_RAW_SAMPLES_PER_FRAME : Nat
  EI_CLASSIFIER_DSP_INPUT_FRAME_SIZE : Nat
  ei_dsp_blocks : List DspBlock

/-- Answers of the collaborators: field `f k` is what the `k`-th call of `f`
returns.  Statuses are `EI_IMPULSE_ERROR` codes, `ei_malloc k` tells whether
the `k`-th allocation yields a non-null pointer. -/
structure Env where
  ei_sleep : Nat → Int
  ei_user_invoke_stop : Nat → Bool
  ei_microphone_inference_start : Nat → Bool
  ei_microphone_inference_record : Nat → Bool
  run_classifier : Nat → Int
  signal_from_buffer : Nat → Int
  ei_camera_init : Nat → Bool
  ei_camera_capture : Nat → Bool
  ei_malloc : Nat → Bool
  encode_bw_signal_as_jpg : Nat → Int

/-- Environment left after one `ei_sleep` call. -/
def Env.after_sleep (env : Env) : Env :=
  { env with ei_sleep := fun k => env.ei_sleep (k + 1) }

/-- Environment left after one `ei_user_invoke_stop` call. -/
def Env.after_stop (env : Env) : Env :=
  { env with ei_user_invoke_stop := fun k => env.ei_user_invoke_stop (k + 1) }

/-- Environment left after one `ei_microphone_inference_start` call. -/
def Env.after_start (env : Env) : Env :=
  { env with ei_microphone_inference_start := fun k => env.ei_microphone_inference_start (k + 1) }

/-- Environment left after one `ei_microphone_inference_record` call. -/
def Env.after_record (env : Env) : Env :=
  { env with ei_microphone_inference_record := fun k => env.ei_microphone_inference_record (k + 1) }

/-- Environment left after one `run_classifier` or `run_classifier_continuous` call. -/
def Env.after_classify (env : Env) : Env :=
  { env with run_classifier := fun k => env.run_classifier (k + 1) }

/-- Environment left after one `numpy::signal_from_buffer` call. -/
def Env.after_signal (env : Env) : Env :=
  { env with signal_from_buffer := fun k => env.signal_from_buffer (k + 1) }

/-- Environment left after one `ei_camera_init` call. -/
def Env.after_init (env : Env) : Env :=
  { env with ei_camera_init := fun k => env.ei_camera_init (k + 1) }

/-- Environment left after one `ei_camera_capture` call. -/
def Env.after_capture (env : Env) : Env :=
  { env with ei_camera_capture := fun k => env.ei_camera_capture (k + 1) }

/-- Environment left after one `ei_malloc` call. -/
def Env.after_malloc (env : Env) : Env :=
  { env with ei_malloc := fun k => env.ei_malloc (k + 1) }

/-- Environment left after one `encode_bw_signal_as_jpg` call. -/
def Env.after_encode (env : Env) : Env :=
  { env with encode_bw_signal_as_jpg := fun k => env.encode_bw_signal_as_jpg (k + 1) }

/-! ## Loops -/

/-- How the body of a loop hands control back: fall through to the next
round, `break`, or `return` from the function. -/
inductive Ctl
  | next
  | brk
  | ret
  deriving DecidableEq

/-- Outcome of one round of a loop body over loop variables `σ`. -/
structure Step (σ : Type) where
  events : List Event
  ctl : Ctl
  env : Env
  vars : σ

/-- How a loop ended: control left the loop (`break` or a false condition),
the function returned from inside the loop, or the bound on the number of
rounds was reached while the loop was still going. -/
inductive LoopEnd
  | left
  | returned
  | running
  deriving DecidableEq

/-- Events of a loop and the way it ended. -/
structure LoopRun where
  trace : List Event
  stop : LoopEnd

/-- The loop `while (cond) body`, run for at most `fuel` rounds. -/
def while_loop {σ : Type} (cond : σ → Bool) (body : Env → σ → Step σ) :
    Nat → Env → σ → LoopRun
  | 0, _, s => if cond s then ⟨[], LoopEnd.running⟩ else ⟨[], LoopEnd.left⟩
  | fuel + 1, env, s =>
    if cond s then
      match (body env s).ctl with
      | Ctl.next =>
        ⟨(body env s).events ++
            (while_loop cond body fuel (body env s).env (body env s).vars).trace,
          (while_loop cond body fuel (body env s).env (body env s).vars).stop⟩
      | Ctl.brk => ⟨(body env s).events, LoopEnd.left⟩
      | Ctl.ret => ⟨(body env s).events, LoopEnd.returned⟩
    else ⟨[], LoopEnd.left⟩

/-- How a function ended: it returned, or it was still inside its loop when
the bound on the number of rounds was reached. -/
inductive Exit
  | returned
  | running
  deriving DecidableEq

/-- Events of a function call and the way it ended. -/
structure Run where
  trace : List Event
  exit : Exit

/-- Code that follows a loop: it runs when control left the loop, not when
the function returned from inside the loop. -/
def after_loop (l : LoopRun) (epilogue : List Event) : Run :=
  match l.stop with
  | LoopEnd.left => ⟨l.trace ++ epilogue, Exit.returned⟩
  | LoopEnd.returned => ⟨l.trace, Exit.returned⟩
  | LoopEnd.running => ⟨l.trace, Exit.running⟩

/-- Events in front of a run. -/
def Run.after (events : List Event) (r : Run) : Run :=
  ⟨events ++ r.trace, r.exit⟩

/-! ## Microphone, continuous mode (lines 218-286) -/

/-- The report threshold `EI_CLASSIFIER_SLICES_PER_MODEL_WINDOW >> 1` of line 261. -/
def report_threshold (cfg : Config) : Int :=
  ((cfg.EI_CLASSIFIER_SLICES_PER_MODEL_WINDOW >>> 1 : Nat) : Int)

/-- One round of the loop of `run_nn_continuous` (lines 244-282); the loop
variable is `print_results`. -/
def run_nn_continuous_round (cfg : Config) (env : Env) (print_results : Int) : Step Int :=
  let m := env.ei_microphone_inference_record 0
  let env := env.after_record
  if m = false then
    ⟨[Event.call Fn.ei_microphone_inference_record (Val.bool m),
      Event.print Msg.err_record_audio], Ctl.brk, env, print_results⟩
  else
    let r := env.run_classifier 0
    let env := env.after_classify
    if r ≠ EI_IMPULSE_OK then
      ⟨[Event.call Fn.ei_microphone_inference_record (Val.bool m),
        Event.call Fn.run_classifier_continuous (Val.status r),
        Event.print Msg.err_run_classifier], Ctl.brk, env, print_results⟩
    else
      let print_results := print_results + 1
      let due : Bool := decide (print_results ≥ report_threshold cfg)
      let report := if due then [Event.print Msg.predictions] else []
      let print_results := if due then 0 else print_results
      let s := env.ei_user_invoke_stop 0
      let env := env.after_stop
      if s then
        ⟨[Event.call Fn.ei_microphone_inference_record (Val.bool m),
          Event.call Fn.run_classifier_continuous (Val.status r)] ++ report ++
          [Event.call Fn.ei_user_invoke_stop_after (Val.bool s),
           Event.print Msg.stopped_by_user], Ctl.brk, env, print_results⟩
      else
        ⟨[Event.call Fn.ei_microphone_inference_record (Val.bool m),
          Event.call Fn.run_classifier_continuous (Val.status r)] ++ report ++
          [Event.call Fn.ei_user_invoke_stop_after (Val.bool s)], Ctl.next, env, print_results⟩

/-- The function `run_nn_continuous(debug)`, run for at most `fuel` rounds.
`stop_inferencing` is never assigned, so the loop condition is constantly
true; the result of `ei_microphone_inference_start` is discarded. -/
def run_nn_continuous (cfg : Config) (env : Env) (debug : Bool) (fuel : Nat) : Run :=
  if cfg.EI_CLASSIFIER_FREQUENCY ≠ 16000 then
    ⟨[Event.print Msg.err_frequency], Exit.returned⟩
  else
    let print_results : Int := -(cfg.EI_CLASSIFIER_SLICES_PER_MODEL_WINDOW : Int)
    Run.after
      [Event.print Msg.settings, Event.print Msg.starting_inferencing,
       Event.call Fn.run_classifier_init Val.unit,
       Event.call Fn.ei_microphone_inference_start Val.unit]
      (after_loop
        (while_loop (fun _ => true) (run_nn_continuous_round cfg) fuel env.after_start
          print_results)
        [Event.call Fn.ei_microphone_inference_end Val.unit])

/-- Events in front of the events of a round. -/
def Step.after {σ : Type} (events : List Event) (st : Step σ) : Step σ :=
  ⟨events ++ st.events, st.ctl, st.env, st.vars⟩

/-- The delay at the top of a round of `run_nn` (lines 82-89, 160-167 and
326-333): when `delay_ms` is not zero the round announces the delay and
sleeps, and a sleep that does not return `EI_IMPULSE_OK` breaks the loop.
`rest` is the remainder of the round, `vars` the loop variables. -/
def delay_block {σ : Type} (delay_ms : Int) (vars : σ) (rest : Env → Step σ) (env : Env) :
    Step σ :=
  if delay_ms ≠ 0 then
    let r := env.ei_sleep 0
    let env := env.after_sleep
    if r ≠ EI_IMPULSE_OK then
      ⟨[Event.print Msg.starting_in_seconds,
        Event.call Fn.ei_sleep_delay (Val.status r)], Ctl.brk, env, vars⟩
    else
      Step.after [Event.print Msg.starting_in_seconds,
        Event.call Fn.ei_sleep_delay (Val.status r)] (rest env)
  else rest env

/-! ## Microphone, one window per round (lines 138-215) -/

/-- Lines 169-211 of the microphone `run_nn`: the stop check, the recording,
the classification, the report and the second stop check. -/
def run_nn_microphone_sample (env : Env) : Step Unit :=
  let s := env.ei_user_invoke_stop 0
  let env := env.after_stop
  if s then
    ⟨[Event.call Fn.ei_user_invoke_stop_before (Val.bool s),
      Event.print Msg.stopped_by_user,
      Event.call Fn.set_state_idle Val.unit], Ctl.brk, env, ()⟩
  else
    let m := env.ei_microphone_inference_record 0
    let env := env.after_record
    if m = false then
      ⟨[Event.call Fn.ei_user_invoke_stop_before (Val.bool s),
        Event.print Msg.recording,
        Event.call Fn.ei_microphone_inference_reset_buffers Val.unit,
        Event.call Fn.ei_microphone_inference_record (Val.bool m),
        Event.print Msg.err_record_audio], Ctl.brk, env, ()⟩
    else
      let r := env.run_classifier 0
      let env := env.after_classify
      if r ≠ EI_IMPULSE_OK then
        ⟨[Event.call Fn.ei_user_invoke_stop_before (Val.bool s),
          Event.print Msg.recording,
          Event.call Fn.ei_microphone_inference_reset_buffers Val.unit,
          Event.call Fn.ei_microphone_inference_record (Val.bool m),
          Event.print Msg.recording_done,
          Event.call Fn.run_classifier (Val.status r),
          Event.print Msg.err_run_classifier], Ctl.brk, env, ()⟩
      else
        let s2 := env.ei_user_invoke_stop 0
        let env := env.after_stop
        if s2 then
          ⟨[Event.call Fn.ei_user_invoke_stop_before (Val.bool s),
            Event.print Msg.recording,
            Event.call Fn.ei_microphone_inference_reset_buffers Val.unit,
            Event.call Fn.ei_microphone_inference_record (Val.bool m),
            Event.print Msg.recording_done,
            Event.call Fn.run_classifier (Val.status r),
            Event.print Msg.predictions,
            Event.call Fn.ei_user_invoke_stop_after (Val.bool s2),
            Event.print Msg.stopped_by_user,
            Event.call Fn.set_state_idle Val.unit], Ctl.brk, env, ()⟩
        else
          ⟨[Event.call Fn.ei_user_invoke_stop_before (Val.bool s),
            Event.print Msg.recording,
            Event.call Fn.ei_microphone_inference_reset_buffers Val.unit,
            Event.call Fn.ei_microphone_inference_record (Val.bool m),
            Event.print Msg.recording_done,
            Event.call Fn.run_classifier (Val.status r),
            Event.print Msg.predictions,
            Event.call Fn.ei_user_invoke_stop_after (Val.bool s2)], Ctl.next, env, ()⟩

/-- One round of the loop of the microphone `run_nn` (lines 160-211). -/
def run_nn_microphone_round (delay_ms : Int) (env : Env) (_ : Unit) : Step Unit :=
  delay_block delay_ms () run_nn_microphone_sample env

/-- The microphone variant of `run_nn(debug, delay_ms, use_max_baudrate)`,
run for at most `fuel` rounds. -/
def run_nn_microphone (cfg : Config) (env : Env) (debug : Bool) (delay_ms : Int)
    (use_max_baudrate : Bool) (fuel : Nat) : Run :=
  if cfg.EI_CLASSIFIER_FREQUENCY ≠ 16000 then
    ⟨[Event.print Msg.err_frequency], Exit.returned⟩
  else
    let started := env.ei_microphone_inference_start 0
    let env := env.after_start
    if started = false then
      ⟨[Event.print Msg.settings,
        Event.call Fn.ei_microphone_inference_start (Val.bool started),
        Event.print Msg.err_audio_setup], Exit.returned⟩
    else
      Run.after
        [Event.print Msg.settings,
         Event.call Fn.ei_microphone_inference_start (Val.bool started),
         Event.print Msg.starting_inferencing]
        (after_loop (while_loop (fun _ => true) (run_nn_microphone_round delay_ms) fuel env ())
          [Event.call Fn.ei_microphone_inference_end Val.unit])

/-! ## Accelerometer (lines 66-136) -/

/-- Lines 113-134 of the accelerometer `run_nn`: the classification, the
report and the second stop check. -/
def run_nn_accelerometer_classify (env : Env) : Step Unit :=
  let ei_error := env.run_classifier 0
  let env := env.after_classify
  if ei_error ≠ EI_IMPULSE_OK then
    ⟨[Event.call Fn.run_classifier (Val.status ei_error),
      Event.print Msg.failed_run_impulse], Ctl.brk, env, ()⟩
  else
    let s := env.ei_user_invoke_stop 0
    let env := env.after_stop
    if s then
      ⟨[Event.call Fn.run_classifier (Val.status ei_error),
        Event.print Msg.predictions,
        Event.call Fn.ei_user_invoke_stop_after (Val.bool s),
        Event.print Msg.stopped_by_user,
        Event.call Fn.set_state_idle Val.unit], Ctl.brk, env, ()⟩
    else
      ⟨[Event.call Fn.run_classifier (Val.status ei_error),
        Event.print Msg.predictions,
        Event.call Fn.ei_user_invoke_stop_after (Val.bool s)], Ctl.next, env, ()⟩

/-- Lines 106-111 of the accelerometer `run_nn`: the signal is built over
`acc_buf`; an error of `numpy::signal_from_buffer` is printed and the round
goes on. -/
def run_nn_accelerometer_signal (env : Env) : List Event :=
  let err := env.signal_from_buffer 0
  Event.call Fn.signal_from_buffer (Val.status err) ::
    (if err ≠ 0 then [Event.print Msg.err_signal_from_buffer] else [])

/-- Lines 91-134 of the accelerometer `run_nn`: the stop check, the sampler
loop of `EI_CLASSIFIER_RAW_SAMPLE_COUNT` reads, the signal construction and
the classification. -/
def run_nn_accelerometer_sample (cfg : Config) (env : Env) : Step Unit :=
  let s := env.ei_user_invoke_stop 0
  let env := env.after_stop
  if s then
    ⟨[Event.call Fn.ei_user_invoke_stop_before (Val.bool s),
      Event.print Msg.stopped_by_user,
      Event.call Fn.set_state_idle Val.unit], Ctl.brk, env, ()⟩
  else
    Step.after
      ([Event.call Fn.ei_user_invoke_stop_before (Val.bool s),
        Event.print Msg.sampling,
        Event.call Fn.ei_read_timer_ms Val.unit] ++
        List.replicate cfg.EI_CLASSIFIER_RAW_SAMPLE_COUNT
          (Event.call Fn.ei_inertial_read_data Val.unit) ++
        run_nn_accelerometer_signal env)
      (run_nn_accelerometer_classify env.after_signal)

/-- One round of the loop of the accelerometer `run_nn` (lines 82-134). -/
def run_nn_accelerometer_round (cfg : Config) (delay_ms : Int) (env : Env) (_ : Unit) :
    Step Unit :=
  delay_block delay_ms () (run_nn_accelerometer_sample cfg) env

/-- The accelerometer variant of `run_nn(debug, delay_ms, use_max_baudrate)`,
run for at most `fuel` rounds.  Nothing follows the loop. -/
def run_nn_accelerometer (cfg : Config) (env : Env) (debug : Bool) (delay_ms : Int)
    (use_max_baudrate : Bool) (fuel : Nat) : Run :=
  Run.after
    [Event.print Msg.settings, Event.print Msg.starting_inferencing,
     Event.call Fn.ei_inertial_sample_start Val.unit]
    (after_loop
      (while_loop (fun _ => true) (run_nn_accelerometer_round cfg delay_ms) fuel env ()) [])

/-! ## Camera (lines 290-434) -/

/-- Lines 347-421 of the camera `run_nn`: the classification, the JPEG dump of
the frame buffer when `debug` is set, the report and the stop check, which
sets `stop_inferencing`. -/
def run_nn_camera_classify (debug : Bool) (env : Env) : Step Bool :=
  let ei_error := env.run_classifier 0
  let env := env.after_classify
  if ei_error ≠ EI_IMPULSE_OK then
    ⟨[Event.call Fn.run_classifier (Val.status ei_error),
      Event.print Msg.failed_run_impulse], Ctl.brk, env, false⟩
  else if debug then
    let jpeg_buffer := env.ei_malloc 0
    let env := env.after_malloc
    if jpeg_buffer = false then
      ⟨[Event.call Fn.run_classifier (Val.status ei_error),
        Event.call Fn.ei_malloc (Val.bool jpeg_buffer),
        Event.print Msg.err_alloc_jpg], Ctl.ret, env, false⟩
    else
      let x := env.encode_bw_signal_as_jpg 0
      let env := env.after_encode
      if x ≠ 0 then
        ⟨[Event.call Fn.run_classifier (Val.status ei_error),
          Event.call Fn.ei_malloc (Val.bool jpeg_buffer),
          Event.print Msg.begin_output,
          Event.call Fn.encode_bw_signal_as_jpg (Val.status x),
          Event.print Msg.failed_encode_jpeg], Ctl.brk, env, false⟩
      else
        let s := env.ei_user_invoke_stop 0
        let env := env.after_stop
        if s then
          ⟨[Event.call Fn.run_classifier (Val.status ei_error),
            Event.call Fn.ei_malloc (Val.bool jpeg_buffer),
            Event.print Msg.begin_output,
            Event.call Fn.encode_bw_signal_as_jpg (Val.status x),
            Event.print Msg.framebuffer,
            Event.call Fn.base64_encode Val.unit,
            Event.print Msg.crlf,
            Event.call Fn.ei_free Val.unit,
            Event.print Msg.predictions,
            Event.print Msg.end_output,
            Event.call Fn.ei_user_invoke_stop_after (Val.bool s),
            Event.print Msg.stopped_by_user], Ctl.next, env, true⟩
        else
          ⟨[Event.call Fn.run_classifier (Val.status ei_error),
            Event.call Fn.ei_malloc (Val.bool jpeg_buffer),
            Event.print Msg.begin_output,
            Event.call Fn.encode_bw_signal_as_jpg (Val.status x),
            Event.print Msg.framebuffer,
            Event.call Fn.base64_encode Val.unit,
            Event.print Msg.crlf,
            Event.call Fn.ei_free Val.unit,
            Event.print Msg.predictions,
            Event.print Msg.end_output,
            Event.call Fn.ei_user_invoke_stop_after (Val.bool s)], Ctl.next, env, false⟩
  else
    let s := env.ei_user_invoke_stop 0
    let env := env.after_stop
    if s then
      ⟨[Event.call Fn.run_classifier (Val.status ei_error),
        Event.print Msg.predictions,
        Event.call Fn.ei_user_invoke_stop_after (Val.bool s),
        Event.print Msg.stopped_by_user], Ctl.next, env, true⟩
    else
      ⟨[Event.call Fn.run_classifier (Val.status ei_error),
        Event.print Msg.predictions,
        Event.call Fn.ei_user_invoke_stop_after (Val.bool s)], Ctl.next, env, false⟩

/-- Lines 335-421 of the camera `run_nn`: the capture, followed by the
classification when the capture succeeds. -/
def run_nn_camera_capture (debug : Bool) (env : Env) : Step Bool :=
  let captured := env.ei_camera_capture 0
  let env := env.after_capture
  if captured = false then
    ⟨[Event.print Msg.taking_photo,
      Event.call Fn.ei_camera_capture (Val.bool captured),
      Event.print Msg.failed_capture], Ctl.brk, env, false⟩
  else
    Step.after
      [Event.print Msg.taking_photo,
       Event.call Fn.ei_camera_capture (Val.bool captured)]
      (run_nn_camera_classify debug env)

/-- One round of the loop of the camera `run_nn` (lines 326-421); the loop
variable is `stop_inferencing`. -/
def run_nn_camera_round (debug : Bool) (delay_ms : Int) (env : Env) (stop_inferencing : Bool) :
    Step Bool :=
  delay_block delay_ms stop_inferencing (run_nn_camera_capture debug) env

/-- Lines 424-433 of the camera `run_nn`: the code that follows the loop. -/
def run_nn_camera_epilogue (use_max_baudrate : Bool) : List Event :=
  (if use_max_baudrate then
    [Event.print Msg.ok,
     Event.call Fn.set_default_data_output_baudrate Val.unit,
     Event.call Fn.ei_sleep_100 Val.unit]
   else []) ++ [Event.call Fn.ei_camera_deinit Val.unit]

/-- Lines 292-308 of the camera `run_nn`: the settings summary and the colour
warning, printed once when some image DSP block is not configured as
grayscale. -/
def run_nn_camera_summary (cfg : Config) : List Event :=
  Event.print Msg.settings ::
    (if cfg.ei_dsp_blocks.any (fun b => b.is_image_block && !b.grayscale) then
      [Event.print Msg.warn_color_model]
    else [])

/-- Lines 317-323 of the camera `run_nn`: the switch to the maximum baud rate. -/
def run_nn_camera_baudrate (use_max_baudrate : Bool) : List Event :=
  if use_max_baudrate then
    [Event.print Msg.ok,
     Event.call Fn.ei_sleep_100 Val.unit,
     Event.call Fn.set_max_data_output_baudrate Val.unit]
  else []

/-- The camera variant of `run_nn(debug, delay_ms, use_max_baudrate)`, run for
at most `fuel` rounds.  The `ei_sleep(100)` of the baud-rate switch uses up one
answer of `ei_sleep`. -/
def run_nn_camera (cfg : Config) (env : Env) (debug : Bool) (delay_ms : Int)
    (use_max_baudrate : Bool) (fuel : Nat) : Run :=
  let inited := env.ei_camera_init 0
  let env := env.after_init
  if inited = false then
    ⟨run_nn_camera_summary cfg ++
      [Event.call Fn.ei_camera_init (Val.bool inited),
       Event.print Msg.err_camera_init], Exit.returned⟩
  else
    let stop_inferencing := false
    let env := if use_max_baudrate then env.after_sleep else env
    Run.after
      (run_nn_camera_summary cfg ++
        [Event.call Fn.ei_camera_init (Val.bool inited)] ++
        run_nn_camera_baudrate use_max_baudrate)
      (after_loop
        (while_loop (fun stop => !stop) (run_nn_camera_round debug delay_ms) fuel env
          stop_inferencing)
        (run_nn_camera_epilogue use_max_baudrate))

/-- The function `run_nn_debug(baudrate_s)` of the camera build: `baudrate_s`
is the argument string, whose first character selects the baud rate. -/
def run_nn_debug_camera (cfg : Config) (env : Env) (baudrate_s : List Char) (fuel : Nat) :
    Run :=
  let use_max_baudrate := decide (baudrate_s.head? = some 'y')
  run_nn_camera cfg env true 0 use_max_baudrate fuel

/-! ## Classification of events -/

/-- Acquisition calls: a sample read, a recording or a capture. -/
def isAcquisition : Event → Bool
  | Event.call Fn.ei_inertial_read_data _ => true
  | Event.call Fn.ei_microphone_inference_record _ => true
  | Event.call Fn.ei_camera_capture _ => true
  | _ => false

/-- Classifier calls. -/
def isClassifier : Event → Bool
  | Event.call Fn.run_classifier _ => true
  | Event.call Fn.run_classifier_continuous _ => true
  | _ => false

/-- A failed acquisition (a recording or capture that returns false) or a
classification with a status other than `EI_IMPULSE_OK`. -/
def isFailure : Event → Bool
  | Event.call Fn.ei_microphone_inference_record (Val.bool b) => !b
  | Event.call Fn.ei_camera_capture (Val.bool b) => !b
  | Event.call Fn.run_classifier (Val.status r) => decide (r ≠ EI_IMPULSE_OK)
  | Event.call Fn.run_classifier_continuous (Val.status r) => decide (r ≠ EI_IMPULSE_OK)
  | _ => false

/-- Error messages. -/
def isError : Event → Bool
  | Event.print Msg.err_signal_from_buffer => true
  | Event.print Msg.failed_run_impulse => true
  | Event.print Msg.err_frequency => true
  | Event.print Msg.err_audio_setup => true
  | Event.print Msg.err_record_audio => true
  | Event.print Msg.err_run_classifier => true
  | Event.print Msg.err_camera_init => true
  | Event.print Msg.failed_capture => true
  | Event.print Msg.err_alloc_jpg => true
  | Event.print Msg.failed_encode_jpeg => true
  | _ => false

/-- Events of the code in front of the loops: the summary, the start-up calls
and the messages of a failed start-up. -/
def isSetup : Event → Bool
  | Event.print Msg.settings => true
  | Event.print Msg.starting_inferencing => true
  | Event.print Msg.err_frequency => true
  | Event.print Msg.err_audio_setup => true
  | Event.print Msg.warn_color_model => true
  | Event.print Msg.err_camera_init => true
  | Event.print Msg.ok => true
  | Event.call Fn.ei_inertial_sample_start _ => true
  | Event.call Fn.run_classifier_init _ => true
  | Event.call Fn.ei_microphone_inference_start _ => true
  | Event.call Fn.ei_camera_init _ => true
  | Event.call Fn.ei_sleep_100 _ => true
  | Event.call Fn.set_max_data_output_baudrate _ => true
  | _ => false

/-- The error message the code prints for a failed call. -/
def reports : Event → Event → Bool
  | Event.call Fn.ei_microphone_inference_record _, Event.print Msg.err_record_audio => true
  | Event.call Fn.ei_camera_capture _, Event.print Msg.failed_capture => true
  | Event.call Fn.run_classifier _, Event.print Msg.failed_run_impulse => true
  | Event.call Fn.run_classifier _, Event.print Msg.err_run_classifier => true
  | Event.call Fn.run_classifier_continuous _, Event.print Msg.err_run_classifier => true
  | _, _ => false

/-! ## Properties of every position of a run -/

/-- A property `Q pre e post` holds at every position of `tr`, where `e` is
the event at the position, `post` the events that follow it and `pre` the
events in front of it, `h` included. -/
def Splits (Q : List Event → Event → List Event → Prop) : List Event → List Event → Prop
  | _, [] => True
  | h, e :: t => Q h e t ∧ Splits Q (h ++ [e]) t

/-- What a round has to satisfy for `Q` to hold at every position of a loop
followed by the events `E`: a round after which the loop goes on holds no
position that `Q` constrains, and a last round satisfies `Q` with what follows. -/
def RoundOk {σ : Type} (Q : List Event → Event → List Event → Prop) (cond : σ → Bool)
    (E : List Event) (st : Step σ) : Prop :=
  match st.ctl with
  | Ctl.next =>
    if cond st.vars then ∀ e ∈ st.events, ∀ h p, Q h e p
    else ∀ h, Splits Q h (st.events ++ E)
  | Ctl.brk => ∀ h, Splits Q h (st.events ++ E)
  | Ctl.ret => ∀ h, Splits Q h st.events

/-- After a failed acquisition or classification `e`, the events `post` that
follow start with the error message for `e` and hold no further error
message, no acquisition call and no classifier call. -/
def HaltsAt (e : Event) (post : List Event) : Prop :=
  isFailure e = true →
    ∃ m rest, post = m :: rest ∧ reports e m = true ∧
      ∀ x ∈ rest, isAcquisition x = false ∧ isClassifier x = false ∧ isError x = false

/-- Every failed acquisition or classification of the run `tr` halts it. -/
def HaltsAfterFailure (tr : List Event) : Prop :=
  ∀ pre e post, tr = pre ++ e :: post → HaltsAt e post

/-- The stop check that follows the predictions observes a stop request. -/
def StopRequest : Event := Event.call Fn.ei_user_invoke_stop_after (Val.bool true)

/-- A delay that was cancelled: `ei_sleep(delay_ms)` returned a status other
than `EI_IMPULSE_OK`. -/
def isCancelledDelay : Event → Bool
  | Event.call Fn.ei_sleep_delay (Val.status r) => decide (r ≠ EI_IMPULSE_OK)
  | _ => false

/-- The events `h` of a run so far end with a round whose classification
succeeded and whose predictions were printed: since the last successful
`run_classifier` call there was a predictions report and no acquisition or
classifier call. -/
def ReportPrinted (h : List Event) : Prop :=
  ∃ a mid, h = a ++ Event.call Fn.run_classifier (Val.status EI_IMPULSE_OK) :: mid ∧
    Event.print Msg.predictions ∈ mid ∧
    ∀ x ∈ mid, isAcquisition x = false ∧ isClassifier x = false

/-- At the event `e` of a run, with `pre` in front of it and `post` after it:
a cancelled delay is followed by no acquisition and no classifier call, and a
stop request observed after the predictions comes after the report of its
round. -/
def DelayAndStopAt (pre : List Event) (e : Event) (post : List Event) : Prop :=
  (isCancelledDelay e = true →
    ∀ x ∈ post, isAcquisition x = false ∧ isClassifier x = false) ∧
  (e = StopRequest → ReportPrinted pre)

/-- A cancelled delay is followed by no acquisition and no classifier call,
and a stop request observed after the predictions comes after the report of
its round, at every event of the run `tr`. -/
def DelayAndStopOrdered (tr : List Event) : Prop :=
  ∀ pre e post, tr = pre ++ e :: post → DelayAndStopAt pre e post

/-- Calls of `ei_microphone_inference_start`. -/
def isStart : Event → Bool
  | Event.call Fn.ei_microphone_inference_start _ => true
  | _ => false

/-- Calls of `ei_microphone_inference_end`. -/
def isEnd : Event → Bool
  | Event.call Fn.ei_microphone_inference_end _ => true
  | _ => false

/-- Round `n` (counted from 0) of `run_nn_continuous` ends the loop: its
recording fails, its classification fails or its stop check observes a stop
request. -/
def LoopEndsAt (env : Env) (n : Nat) : Prop :=
  env.ei_microphone_inference_record n = false ∨
  env.run_classifier n ≠ EI_IMPULSE_OK ∨
  env.ei_user_invoke_stop n = true

/-! ## The accelerometer staging buffer (lines 40-59 and 99-104) -/

/-- The static variables of the accelerometer build: `acc_buf`, seen as the
memory from its base address on (index `ix` is `acc_buf[ix]`, in or out of
bounds), and `acc_sample_count`.  `stores` records the indices of `acc_buf`
that were stored to, in program order. -/
structure AccState (α : Type) where
  acc_buf : Nat → α
  acc_sample_count : Nat
  stores : List Nat

/-- The store `acc_buf[acc_sample_count + i] = buffer[i]` of line 55.  The index
is the sum of an `int` and a `uint32_t`, computed in 32-bit unsigned
arithmetic. -/
def acc_store {α : Type} (buffer : Nat → α) (st : AccState α) (i : Nat) : AccState α :=
  { st with
    acc_buf := Function.update st.acc_buf ((st.acc_sample_count + i) % 2 ^ 32) (buffer i)
    stores := st.stores ++ [(st.acc_sample_count + i) % 2 ^ 32] }

/-- The callback `acc_data_callback(sample_buf, byteLength)`: it copies
`byteLength / sizeof(float)` floats of `sample_buf` into `acc_buf`, from
`acc_sample_count` on. -/
def acc_data_callback {α : Type} (st : AccState α) (sample_buf : Nat → α) (byteLength : Nat) :
    AccState α :=
  (List.range (byteLength / 4)).foldl (acc_store sample_buf) st

/-- Modelled from the spec: `ei_inertial_read_data` belongs to the inertial
sensor driver, which is not part of the file.  Each call hands one sample of
`byteLength` bytes to the registered callback `acc_data_callback`, once. -/
def ei_inertial_read_data {α : Type} (st : AccState α) (sample : Nat → α) (byteLength : Nat) :
    AccState α :=
  acc_data_callback st sample byteLength

/-- One pass of the loop of lines 101-104: the read of sample `i` and the
advance of `acc_sample_count`, an `int` that stays within its range as long
as the frame size does. -/
def sampler_step {α : Type} (cfg : Config) (samples : Nat → Nat → α) (byteLength : Nat)
    (st : AccState α) (i : Nat) : AccState α :=
  let st := ei_inertial_read_data st (samples i) byteLength
  { st with acc_sample_count := st.acc_sample_count + cfg.EI_CLASSIFIER_RAW_SAMPLES_PER_FRAME }

/-- The sampler of lines 100-104: `acc_sample_count` is reset and
`EI_CLASSIFIER_RAW_SAMPLE_COUNT` samples are read; `samples i` is the sample
delivered by read `i`. -/
def run_sampler {α : Type} (cfg : Config) (samples : Nat → Nat → α) (byteLength : Nat)
    (st : AccState α) : AccState α :=
  (List.range cfg.EI_CLASSIFIER_RAW_SAMPLE_COUNT).foldl (sampler_step cfg samples byteLength)
    { st with acc_sample_count := 0 }

/-- Slices on which a predictions report is printed: the events are scanned in
order, `seen` counts the `run_classifier_continuous` calls so far, and each
report is attributed to the slice classified last. -/
def report_slices : List Event → Nat → List Nat
  | [], _ => []
  | Event.call Fn.run_classifier_continuous _ :: t, seen => report_slices t (seen + 1)
  | Event.print Msg.predictions :: t, seen => seen :: report_slices t seen
  | _ :: t, seen => report_slices t seen

/-- An environment in which the first `n` slices are recorded and classified
with success and no stop is requested at their stop checks. -/
def SlicesSucceed (env : Env) (n : Nat) : Prop :=
  ∀ k, k < n →
    env.ei_microphone_inference_record k = true ∧
    env.run_classifier k = EI_IMPULSE_OK ∧
    env.ei_user_invoke_stop k = false

/-- An environment whose answers are all successes and that never asks to stop. -/
def quiet_env : Env :=
  { ei_sleep := fun _ => 0
    ei_user_invoke_stop := fun _ => false
    ei_microphone_inference_start := fun _ => true
    ei_microphone_inference_record := fun _ => true
    run_classifier := fun _ => 0
    signal_from_buffer := fun _ => 0
    ei_camera_init := fun _ => true
    ei_camera_capture := fun _ => true
    ei_malloc := fun _ => true
    encode_bw_signal_as_jpg := fun _ => 0 }

/-- A configuration with window size `w` at the supported sample rate. -/
def window_cfg (w : Nat) : Config :=
  { EI_CLASSIFIER_FREQUENCY := 16000
    EI_CLASSIFIER_SLICES_PER_MODEL_WINDOW := w
    EI_CLASSIFIER_RAW_SAMPLE_COUNT := 16000
    EI_CLASSIFIER_RAW_SAMPLES_PER_FRAME := 1
    EI_CLASSIFIER_DSP_INPUT_FRAME_SIZE := 16000
    ei_dsp_blocks := [] }

/-- An environment in which `ei_malloc` returns a null pointer and every other
answer is a success. -/
def alloc_fail_env : Env :=
  { quiet_env with ei_malloc := fun _ => false }

/-- An environment in which `numpy::signal_from_buffer` returns the error
code -1 and every other answer is a success. -/
def signal_fail_env : Env :=
  { quiet_env with signal_from_buffer := fun _ => -1 }

/-- An accelerometer configuration with 2 samples of 3 axes per window. -/
def small_acc_cfg : Config :=
  { EI_CLASSIFIER_FREQUENCY := 100
    EI_CLASSIFIER_SLICES_PER_MODEL_WINDOW := 4
    EI_CLASSIFIER_RAW_SAMPLE_COUNT := 2
    EI_CLASSIFIER_RAW_SAMPLES_PER_FRAME := 3
    EI_CLASSIFIER_DSP_INPUT_FRAME_SIZE := 6
    ei_dsp_blocks := [] }

/-- A camera configuration with one grayscale image block. -/
def camera_cfg : Config :=
  { EI_CLASSIFIER_FREQUENCY := 0
    EI_CLASSIFIER_SLICES_PER_MODEL_WINDOW := 4
    EI_CLASSIFIER_RAW_SAMPLE_COUNT := 9216
    EI_CLASSIFIER_RAW_SAMPLES_PER_FRAME := 1
    EI_CLASSIFIER_DSP_INPUT_FRAME_SIZE := 9216
    ei_dsp_blocks := [⟨true, true⟩] }

/-- An environment in which `ei_camera_capture` fails and every other answer
is a success. -/
def capture_fail_env : Env :=
  { quiet_env with ei_camera_capture := fun _ => false }

/-- An environment in which `ei_sleep` is cancelled (status -1) and every
other answer is a success. -/
def cancel_env : Env :=
  { quiet_env with ei_sleep := fun _ => -1 }

/-- An environment in which the second stop check observes a stop request and
every other answer is a success. -/
def late_stop_env : Env :=
  { quiet_env with ei_user_invoke_stop := fun k => decide (k = 1) }

/-- An environment in which every stop check observes a stop request and
every other answer is a success. -/
def stop_env : Env :=
  { quiet_env with ei_user_invoke_stop := fun _ => true }

/-! ## The report cadence of the continuous mode -/

theorem slicesSucceed_shift {env : Env} {n : Nat} (h : SlicesSucceed env (n + 1)) :
    SlicesSucceed env.after_record.after_classify.after_stop n := by
  intro k hk
  exact h (k + 1) (by omega)

theorem continuous_round_success (cfg : Config) (env : Env) (c : Int)
    (h : SlicesSucceed env 1) :
    run_nn_continuous_round cfg env c =
      ⟨[Event.call Fn.ei_microphone_inference_record (Val.bool true),
        Event.call Fn.run_classifier_continuous (Val.status EI_IMPULSE_OK)] ++
        (if c + 1 ≥ report_threshold cfg
          then [Event.print Msg.predictions] else []) ++
        [Event.call Fn.ei_user_invoke_stop_after (Val.bool false)],
       Ctl.next, env.after_record.after_classify.after_stop,
       if c + 1 ≥ report_threshold cfg
          then 0 else c + 1⟩ := by
  obtain ⟨h1, h2, h3⟩ := h 0 (by omega)
  have h2' : env.after_record.run_classifier 0 = EI_IMPULSE_OK := h2
  have h3' : env.after_record.after_classify.ei_user_invoke_stop 0 = false := h3
  simp only [run_nn_continuous_round, h1, h2', h3']
  simp

theorem continuous_loop_running (cfg : Config) :
    ∀ (fuel : Nat) (env : Env) (c : Int), SlicesSucceed env fuel →
      (while_loop (fun _ => true) (run_nn_continuous_round cfg) fuel env c).stop
        = LoopEnd.running := by
  intro fuel
  induction fuel with
  | zero => intro env c _; simp [while_loop]
  | succ n ih =>
    intro env c h
    have h1 : SlicesSucceed env 1 := fun k hk => h k (by omega)
    simp only [while_loop, continuous_round_success cfg env c h1]
    simp only [if_true]
    exact ih _ _ (slicesSucceed_shift h)

theorem continuous_loop_reports (cfg : Config) (H : Nat)
    (hH : report_threshold cfg = (H : Int)) (hh : 1 ≤ H) :
    ∀ (fuel : Nat) (env : Env) (s d : Nat) (c : Int), SlicesSucceed env fuel → 1 ≤ d →
      c = (H : Int) - (d : Int) →
      ∀ n, n ∈ report_slices
          (while_loop (fun _ => true) (run_nn_continuous_round cfg) fuel env c).trace s ↔
        (n ≤ s + fuel ∧ ∃ k, n = s + d + k * H) := by
  intro fuel
  induction fuel with
  | zero =>
    intro env s d c _ hd _ n
    simp only [while_loop, if_true, report_slices, List.not_mem_nil, false_iff]
    rintro ⟨h1, k, h2⟩
    have : 0 ≤ k * H := Nat.zero_le _
    omega
  | succ m ih =>
    intro env s d c h hd hcd n
    have h1 : SlicesSucceed env 1 := fun k hk => h k (by omega)
    simp only [while_loop, continuous_round_success cfg env _ h1]
    simp only [if_true]
    by_cases hdue : d = 1
    · subst hdue
      have hc : c + 1 ≥ report_threshold cfg := by omega
      simp only [hc, if_true]
      have ih1 := ih env.after_record.after_classify.after_stop (s + 1) H 0
        (slicesSucceed_shift h) hh (by omega) n
      simp only [List.cons_append, List.nil_append, List.singleton_append, report_slices,
        List.mem_cons, List.append_eq]
      rw [ih1]
      constructor
      · rintro (rfl | ⟨h2, k, h3⟩)
        · exact ⟨by omega, 0, by omega⟩
        · exact ⟨by omega, k + 1, by rw [h3]; ring⟩
      · rintro ⟨h2, k, h3⟩
        rcases k with _ | k
        · left; omega
        · right
          exact ⟨by omega, k, by rw [h3]; ring⟩
    · have hc : ¬ (c + 1 ≥ report_threshold cfg) := by omega
      simp only [hc, if_false]
      have ih1 := ih env.after_record.after_classify.after_stop (s + 1) (d - 1) (c + 1)
        (slicesSucceed_shift h) (by omega) (by omega) n
      simp only [List.cons_append, List.nil_append, List.singleton_append, report_slices,
        List.append_nil, List.append_eq]
      rw [ih1]
      constructor
      · rintro ⟨h2, k, h3⟩
        exact ⟨by omega, k, by omega⟩
      · rintro ⟨h2, k, h3⟩
        exact ⟨by omega, k, by omega⟩

theorem report_slices_append_end (A : List Event) :
    ∀ s, report_slices (A ++ [Event.call Fn.ei_microphone_inference_end Val.unit]) s =
      report_slices A s := by
  induction A with
  | nil => intro s; simp [report_slices]
  | cons e t ih =>
    intro s
    rcases e with ⟨f, v⟩ | m
    · cases f <;> simp [report_slices, ih]
    · cases m <;> simp [report_slices, ih]

theorem continuous_run_reports (cfg : Config) (env : Env) (debug : Bool) (fuel : Nat)
    (hf : cfg.EI_CLASSIFIER_FREQUENCY = 16000) :
    report_slices (run_nn_continuous cfg env debug fuel).trace 0 =
      report_slices
        (while_loop (fun _ => true) (run_nn_continuous_round cfg) fuel env.after_start
          (-(cfg.EI_CLASSIFIER_SLICES_PER_MODEL_WINDOW : Int))).trace 0 := by
  unfold run_nn_continuous
  simp only [hf, ne_eq, not_true_eq_false, if_false, Run.after, after_loop]
  rcases (while_loop (fun _ => true) (run_nn_continuous_round cfg) fuel env.after_start
      (-(cfg.EI_CLASSIFIER_SLICES_PER_MODEL_WINDOW : Int))).stop with _ | _ | _ <;>
    simp [report_slices, report_slices_append_end]

theorem continuous_round_cases (cfg : Config) (env : Env) (c : Int) :
    (env.ei_microphone_inference_record 0 = false ∧
      run_nn_continuous_round cfg env c =
        ⟨[Event.call Fn.ei_microphone_inference_record (Val.bool false),
          Event.print Msg.err_record_audio], Ctl.brk, env.after_record, c⟩) ∨
    (env.ei_microphone_inference_record 0 = true ∧ env.run_classifier 0 ≠ EI_IMPULSE_OK ∧
      run_nn_continuous_round cfg env c =
        ⟨[Event.call Fn.ei_microphone_inference_record (Val.bool true),
          Event.call Fn.run_classifier_continuous (Val.status (env.run_classifier 0)),
          Event.print Msg.err_run_classifier], Ctl.brk, env.after_record.after_classify, c⟩) ∨
    (env.ei_microphone_inference_record 0 = true ∧ env.run_classifier 0 = EI_IMPULSE_OK ∧
      env.ei_user_invoke_stop 0 = true ∧
      run_nn_continuous_round cfg env c =
        ⟨[Event.call Fn.ei_microphone_inference_record (Val.bool true),
          Event.call Fn.run_classifier_continuous (Val.status EI_IMPULSE_OK)] ++
          (if c + 1 ≥ report_threshold cfg
            then [Event.print Msg.predictions] else []) ++
          [Event.call Fn.ei_user_invoke_stop_after (Val.bool true),
           Event.print Msg.stopped_by_user],
         Ctl.brk, env.after_record.after_classify.after_stop,
         if c + 1 ≥ report_threshold cfg
            then 0 else c + 1⟩) ∨
    (env.ei_microphone_inference_record 0 = true ∧ env.run_classifier 0 = EI_IMPULSE_OK ∧
      env.ei_user_invoke_stop 0 = false ∧
      run_nn_continuous_round cfg env c =
        ⟨[Event.call Fn.ei_microphone_inference_record (Val.bool true),
          Event.call Fn.run_classifier_continuous (Val.status EI_IMPULSE_OK)] ++
          (if c + 1 ≥ report_threshold cfg
            then [Event.print Msg.predictions] else []) ++
          [Event.call Fn.ei_user_invoke_stop_after (Val.bool false)],
         Ctl.next, env.after_record.after_classify.after_stop,
         if c + 1 ≥ report_threshold cfg
            then 0 else c + 1⟩) := by
  have e2 : env.after_record.run_classifier 0 = env.run_classifier 0 := rfl
  have e3 : env.after_record.after_classify.ei_user_invoke_stop 0 =
      env.ei_user_invoke_stop 0 := rfl
  unfold run_nn_continuous_round
  simp only [e2, e3]
  by_cases h1 : env.ei_microphone_inference_record 0 = false
  · left; simp [h1]
  · right
    simp only [Bool.not_eq_false] at h1
    by_cases h2 : env.run_classifier 0 = EI_IMPULSE_OK
    · right
      by_cases h3 : env.ei_user_invoke_stop 0 = true
      · left; simp [h1, h2, h3]
      · right
        simp only [Bool.not_eq_true] at h3
        simp [h1, h2, h3]
    · left; simp [h1, h2]

theorem continuous_loop_first_report (cfg : Config) (H : Nat)
    (hH : report_threshold cfg = (H : Int)) (hh : 1 ≤ H) :
    ∀ (fuel : Nat) (env : Env) (s d : Nat) (c : Int), 1 ≤ d →
      c = (H : Int) - (d : Int) →
      ∀ n ∈ report_slices
          (while_loop (fun _ => true) (run_nn_continuous_round cfg) fuel env c).trace s,
        s + d ≤ n := by
  intro fuel
  induction fuel with
  | zero =>
    intro env s d c _ _ n hn
    simp [while_loop, report_slices] at hn
  | succ m ih =>
    intro env s d c hd hcd n hn
    simp only [while_loop, if_true] at hn
    rcases continuous_round_cases cfg env c with ⟨_, hr⟩ | ⟨_, _, hr⟩ | ⟨_, _, _, hr⟩ |
      ⟨_, _, _, hr⟩ <;> rw [hr] at hn <;> simp only at hn
    · simp [report_slices] at hn
    · simp [report_slices] at hn
    · by_cases hdue : d = 1
      · have hc : c + 1 ≥ report_threshold cfg := by omega
        simp only [hc, if_true, List.cons_append, List.nil_append, report_slices,
          List.mem_singleton] at hn
        omega
      · have hc : ¬ (c + 1 ≥ report_threshold cfg) := by omega
        simp [hc, report_slices] at hn
    · by_cases hdue : d = 1
      · have hc : c + 1 ≥ report_threshold cfg := by omega
        simp only [hc, if_true, List.cons_append, List.nil_append, report_slices,
          List.mem_cons] at hn
        rcases hn with hn | hn
        · omega
        · have := ih _ (s + 1) H 0 hh (by omega) n hn
          omega
      · have hc : ¬ (c + 1 ≥ report_threshold cfg) := by omega
        simp only [hc, if_false, List.cons_append, List.nil_append, report_slices,
          List.append_nil] at hn
        have := ih _ (s + 1) (d - 1) (c + 1) (by omega) (by omega) n hn
        omega

/-! ## Positions of a run -/

theorem splits_spec (Q : List Event → Event → List Event → Prop) :
    ∀ (tr h : List Event), Splits Q h tr →
      ∀ pre e post, tr = pre ++ e :: post → Q (h ++ pre) e post := by
  intro tr
  induction tr with
  | nil => intro h _ pre e post heq; simp at heq
  | cons x t ih =>
    intro h hs pre e post heq
    rcases pre with _ | ⟨y, pre⟩
    · simp only [List.nil_append, List.cons.injEq] at heq
      obtain ⟨rfl, rfl⟩ := heq
      simpa using hs.1
    · simp only [List.cons_append, List.cons.injEq] at heq
      obtain ⟨rfl, rfl⟩ := heq
      have := ih (h ++ [x]) hs.2 pre e post rfl
      simpa using this

theorem splits_append_quiet (Q : List Event → Event → List Event → Prop) :
    ∀ (A B h : List Event), (∀ e ∈ A, ∀ h p, Q h e p) → Splits Q (h ++ A) B →
      Splits Q h (A ++ B) := by
  intro A
  induction A with
  | nil => intro B h _ hs; simpa using hs
  | cons x t ih =>
    intro B h hq hs
    refine ⟨hq x (List.mem_cons_self _ _) _ _, ?_⟩
    apply ih B (h ++ [x]) (fun e he => hq e (List.mem_cons_of_mem _ he))
    simpa using hs

theorem while_loop_stop_of_not_cond {σ : Type} (cond : σ → Bool) (body : Env → σ → Step σ)
    (fuel : Nat) (env : Env) (s : σ) (h : cond s = false) :
    while_loop cond body fuel env s = ⟨[], LoopEnd.left⟩ := by
  cases fuel <;> simp [while_loop, h]

theorem after_loop_next {σ : Type} (cond : σ → Bool) (body : Env → σ → Step σ)
    (fuel : Nat) (env : Env) (s : σ) (E : List Event) (hc : cond s = true)
    (hn : (body env s).ctl = Ctl.next) :
    (after_loop (while_loop cond body (fuel + 1) env s) E).trace =
      (body env s).events ++
        (after_loop (while_loop cond body fuel (body env s).env (body env s).vars) E).trace := by
  simp only [while_loop, hc, if_true, hn, after_loop]
  cases (while_loop cond body fuel (body env s).env (body env s).vars).stop <;> simp

theorem while_loop_splits {σ : Type} (Q : List Event → Event → List Event → Prop)
    (cond : σ → Bool) (body : Env → σ → Step σ) (E : List Event)
    (hE : ∀ h, Splits Q h E)
    (hbody : ∀ env s, cond s = true → RoundOk Q cond E (body env s)) :
    ∀ (fuel : Nat) (env : Env) (s : σ) (h : List Event),
      Splits Q h (after_loop (while_loop cond body fuel env s) E).trace := by
  intro fuel
  induction fuel with
  | zero =>
    intro env s h
    by_cases hc : cond s = true
    · simp [while_loop, hc, after_loop, Splits]
    · simp only [Bool.not_eq_true] at hc
      simpa [while_loop, hc, after_loop] using hE h
  | succ n ih =>
    intro env s h
    by_cases hc : cond s = true
    · have hb := hbody env s hc
      unfold RoundOk at hb
      rcases hctl : (body env s).ctl with _ | _ | _
      · rw [after_loop_next cond body n env s E hc hctl]
        simp only [hctl] at hb
        by_cases hv : cond (body env s).vars = true
        · simp only [hv, if_true] at hb
          exact splits_append_quiet Q _ _ h hb (ih _ _ _)
        · simp only [hv] at hb
          simp only [Bool.not_eq_true] at hv
          rw [while_loop_stop_of_not_cond cond body n _ _ hv]
          simpa [after_loop] using hb h
      · simp only [hctl] at hb
        simpa [while_loop, hc, hctl, after_loop] using hb h
      · simp only [hctl] at hb
        simpa [while_loop, hc, hctl, after_loop] using hb h
    · simp only [Bool.not_eq_true] at hc
      rw [while_loop_stop_of_not_cond cond body _ _ _ hc]
      simpa [after_loop] using hE h

theorem run_positions (Q : List Event → Event → List Event → Prop) (P : List Event) (r : Run)
    (hP : ∀ e ∈ P, ∀ h p, Q h e p) (hr : ∀ h, Splits Q h r.trace) :
    ∀ pre e post, (Run.after P r).trace = pre ++ e :: post → Q pre e post := by
  intro pre e post heq
  have := splits_spec Q _ [] (splits_append_quiet Q P r.trace [] hP (hr _)) pre e post heq
  simpa using this

theorem splits_of_silent (Q : List Event → Event → List Event → Prop) (A : List Event)
    (hA : ∀ e ∈ A, ∀ h p, Q h e p) (h : List Event) : Splits Q h A := by
  have := splits_append_quiet Q A [] h hA (by simp [Splits])
  simpa using this

theorem positions_of_silent (Q : List Event → Event → List Event → Prop) (A : List Event)
    (hA : ∀ e ∈ A, ∀ h p, Q h e p) :
    ∀ pre e post, A = pre ++ e :: post → Q pre e post := by
  intro pre e post heq
  have := splits_spec Q A [] (splits_of_silent Q A hA []) pre e post heq
  simpa using this

theorem accelerometer_positions (Q : List Event → Event → List Event → Prop)
    (cfg : Config) (env : Env) (debug : Bool) (delay_ms : Int) (use_max_baudrate : Bool)
    (fuel : Nat)
    (hsetup : ∀ e, isSetup e = true → ∀ h p, Q h e p)
    (hround : ∀ env s, RoundOk Q (fun _ => true) []
      (run_nn_accelerometer_round cfg delay_ms env s)) :
    ∀ pre e post,
      (run_nn_accelerometer cfg env debug delay_ms use_max_baudrate fuel).trace =
        pre ++ e :: post → Q pre e post := by
  unfold run_nn_accelerometer
  apply run_positions Q
  · intro e he
    apply hsetup
    revert e
    simp [isSetup]
  · intro h
    exact while_loop_splits Q _ _ _ (fun h => by simp [Splits]) (fun env s _ => hround env s)
      _ _ _ _

theorem microphone_positions (Q : List Event → Event → List Event → Prop)
    (cfg : Config) (env : Env) (debug : Bool) (delay_ms : Int) (use_max_baudrate : Bool)
    (fuel : Nat)
    (hsetup : ∀ e, isSetup e = true → ∀ h p, Q h e p)
    (hE : ∀ h, Splits Q h [Event.call Fn.ei_microphone_inference_end Val.unit])
    (hround : ∀ env s, RoundOk Q (fun _ => true)
      [Event.call Fn.ei_microphone_inference_end Val.unit]
      (run_nn_microphone_round delay_ms env s)) :
    ∀ pre e post,
      (run_nn_microphone cfg env debug delay_ms use_max_baudrate fuel).trace =
        pre ++ e :: post → Q pre e post := by
  unfold run_nn_microphone
  simp only
  split_ifs with h1 h2
  · apply positions_of_silent
    intro e he
    apply hsetup
    revert e
    simp [isSetup]
  · apply positions_of_silent
    intro e he
    apply hsetup
    revert e
    simp [isSetup]
  · apply run_positions Q
    · intro e he
      apply hsetup
      revert e
      simp [isSetup]
    · intro h
      exact while_loop_splits Q _ _ _ hE (fun env s _ => hround env s) _ _ _ _

theorem continuous_positions (Q : List Event → Event → List Event → Prop)
    (cfg : Config) (env : Env) (debug : Bool) (fuel : Nat)
    (hsetup : ∀ e, isSetup e = true → ∀ h p, Q h e p)
    (hE : ∀ h, Splits Q h [Event.call Fn.ei_microphone_inference_end Val.unit])
    (hround : ∀ env s, RoundOk Q (fun _ => true)
      [Event.call Fn.ei_microphone_inference_end Val.unit]
      (run_nn_continuous_round cfg env s)) :
    ∀ pre e post,
      (run_nn_continuous cfg env debug fuel).trace = pre ++ e :: post → Q pre e post := by
  unfold run_nn_continuous
  simp only
  split_ifs with h1
  · apply positions_of_silent
    intro e he
    apply hsetup
    revert e
    simp [isSetup]
  · apply run_positions Q
    · intro e he
      apply hsetup
      revert e
      simp [isSetup]
    · intro h
      exact while_loop_splits Q _ _ _ hE (fun env s _ => hround env s) _ _ _ _

theorem camera_setup_silent (cfg : Config) (use_max_baudrate b : Bool) :
    ∀ e ∈ run_nn_camera_summary cfg ++ [Event.call Fn.ei_camera_init (Val.bool b)] ++
      run_nn_camera_baudrate use_max_baudrate ++ [Event.print Msg.err_camera_init],
      isSetup e = true := by
  unfold run_nn_camera_summary run_nn_camera_baudrate
  cases use_max_baudrate <;> split_ifs <;> simp [isSetup]

theorem camera_positions (Q : List Event → Event → List Event → Prop)
    (cfg : Config) (env : Env) (debug : Bool) (delay_ms : Int) (use_max_baudrate : Bool)
    (fuel : Nat)
    (hsetup : ∀ e, isSetup e = true → ∀ h p, Q h e p)
    (hE : ∀ h, Splits Q h (run_nn_camera_epilogue use_max_baudrate))
    (hround : ∀ env s, RoundOk Q (fun stop => !stop)
      (run_nn_camera_epilogue use_max_baudrate)
      (run_nn_camera_round debug delay_ms env s)) :
    ∀ pre e post,
      (run_nn_camera cfg env debug delay_ms use_max_baudrate fuel).trace =
        pre ++ e :: post → Q pre e post := by
  unfold run_nn_camera
  simp only
  split_ifs with h1
  · apply positions_of_silent
    intro e he
    apply hsetup
    apply camera_setup_silent cfg false (env.ei_camera_init 0)
    simp only [run_nn_camera_baudrate, List.mem_append, List.mem_cons, List.mem_singleton,
      List.not_mem_nil, or_false] at he ⊢
    tauto
  all_goals
    apply run_positions Q
    · intro e he
      apply hsetup
      apply camera_setup_silent cfg use_max_baudrate (env.ei_camera_init 0)
      exact List.mem_append_left _ he
    · intro h
      exact while_loop_splits Q _ _ _ hE (fun env s _ => hround env s) _ _ _ _

theorem while_loop_running_silent {σ : Type} (Q : List Event → Event → List Event → Prop)
    (cond : σ → Bool) (body : Env → σ → Step σ) (E : List Event)
    (hbody : ∀ env s, cond s = true → RoundOk Q cond E (body env s)) :
    ∀ (fuel : Nat) (env : Env) (s : σ),
      (while_loop cond body fuel env s).stop = LoopEnd.running →
      ∀ e ∈ (while_loop cond body fuel env s).trace, ∀ h p, Q h e p := by
  intro fuel
  induction fuel with
  | zero =>
    intro env s _ e he
    by_cases hc : cond s = true <;> simp [while_loop, hc] at he
  | succ n ih =>
    intro env s hrun e he
    by_cases hc : cond s = true
    · have hb := hbody env s hc
      unfold RoundOk at hb
      rcases hctl : (body env s).ctl with _ | _ | _
      · simp only [while_loop, hc, if_true, hctl] at hrun he
        simp only [hctl] at hb
        by_cases hv : cond (body env s).vars = true
        · simp only [hv, if_true] at hb
          rcases List.mem_append.mp he with h1 | h1
          · exact hb e h1
          · exact ih _ _ hrun e h1
        · simp only [Bool.not_eq_true] at hv
          rw [while_loop_stop_of_not_cond cond body n _ _ hv] at hrun
          simp at hrun
      · simp [while_loop, hc, hctl] at hrun
      · simp [while_loop, hc, hctl] at hrun
    · simp only [Bool.not_eq_true] at hc
      rw [while_loop_stop_of_not_cond cond body _ _ _ hc] at hrun
      simp at hrun

theorem run_running_silent (Q : List Event → Event → List Event → Prop) (P E : List Event)
    (l : LoopRun) (hP : ∀ e ∈ P, ∀ h p, Q h e p)
    (hl : l.stop = LoopEnd.running → ∀ e ∈ l.trace, ∀ h p, Q h e p) :
    (Run.after P (after_loop l E)).exit = Exit.running →
      ∀ e ∈ (Run.after P (after_loop l E)).trace, ∀ h p, Q h e p := by
  unfold Run.after after_loop
  rcases hs : l.stop with _ | _ | _
  · simp
  · simp
  · simp only [forall_const]
    intro e he
    rcases List.mem_append.mp he with h1 | h1
    · exact hP e h1
    · exact hl hs e h1

theorem accelerometer_running (Q : List Event → Event → List Event → Prop)
    (cfg : Config) (env : Env) (debug : Bool) (delay_ms : Int) (use_max_baudrate : Bool)
    (fuel : Nat)
    (hsetup : ∀ e, isSetup e = true → ∀ h p, Q h e p)
    (hround : ∀ env s, RoundOk Q (fun _ => true) []
      (run_nn_accelerometer_round cfg delay_ms env s)) :
    (run_nn_accelerometer cfg env debug delay_ms use_max_baudrate fuel).exit = Exit.running →
      ∀ e ∈ (run_nn_accelerometer cfg env debug delay_ms use_max_baudrate fuel).trace,
        ∀ h p, Q h e p := by
  unfold run_nn_accelerometer
  apply run_running_silent Q
  · intro e he
    apply hsetup
    revert e
    simp [isSetup]
  · exact while_loop_running_silent Q _ _ _ (fun env s _ => hround env s) _ _ _

theorem microphone_running (Q : List Event → Event → List Event → Prop)
    (cfg : Config) (env : Env) (debug : Bool) (delay_ms : Int) (use_max_baudrate : Bool)
    (fuel : Nat)
    (hsetup : ∀ e, isSetup e = true → ∀ h p, Q h e p)
    (hround : ∀ env s, RoundOk Q (fun _ => true)
      [Event.call Fn.ei_microphone_inference_end Val.unit]
      (run_nn_microphone_round delay_ms env s)) :
    (run_nn_microphone cfg env debug delay_ms use_max_baudrate fuel).exit = Exit.running →
      ∀ e ∈ (run_nn_microphone cfg env debug delay_ms use_max_baudrate fuel).trace,
        ∀ h p, Q h e p := by
  unfold run_nn_microphone
  simp only
  split_ifs with h1 h2
  · simp
  · simp
  · apply run_running_silent Q
    · intro e he
      apply hsetup
      revert e
      simp [isSetup]
    · exact while_loop_running_silent Q _ _ _ (fun env s _ => hround env s) _ _ _

theorem continuous_running (Q : List Event → Event → List Event → Prop)
    (cfg : Config) (env : Env) (debug : Bool) (fuel : Nat)
    (hsetup : ∀ e, isSetup e = true → ∀ h p, Q h e p)
    (hround : ∀ env s, RoundOk Q (fun _ => true)
      [Event.call Fn.ei_microphone_inference_end Val.unit]
      (run_nn_continuous_round cfg env s)) :
    (run_nn_continuous cfg env debug fuel).exit = Exit.running →
      ∀ e ∈ (run_nn_continuous cfg env debug fuel).trace, ∀ h p, Q h e p := by
  unfold run_nn_continuous
  simp only
  split_ifs with h1
  · simp
  · apply run_running_silent Q
    · intro e he
      apply hsetup
      revert e
      simp [isSetup]
    · exact while_loop_running_silent Q _ _ _ (fun env s _ => hround env s) _ _ _

theorem camera_running (Q : List Event → Event → List Event → Prop)
    (cfg : Config) (env : Env) (debug : Bool) (delay_ms : Int) (use_max_baudrate : Bool)
    (fuel : Nat)
    (hsetup : ∀ e, isSetup e = true → ∀ h p, Q h e p)
    (hround : ∀ env s, RoundOk Q (fun stop => !stop)
      (run_nn_camera_epilogue use_max_baudrate)
      (run_nn_camera_round debug delay_ms env s)) :
    (run_nn_camera cfg env debug delay_ms use_max_baudrate fuel).exit = Exit.running →
      ∀ e ∈ (run_nn_camera cfg env debug delay_ms use_max_baudrate fuel).trace,
        ∀ h p, Q h e p := by
  unfold run_nn_camera
  simp only
  split_ifs with h1
  · simp
  all_goals
    apply run_running_silent Q
    · intro e he
      apply hsetup
      apply camera_setup_silent cfg use_max_baudrate (env.ei_camera_init 0)
      exact List.mem_append_left _ he
    · exact while_loop_running_silent Q _ _ _ (fun env s _ => hround env s) _ _ _

theorem exit_cases (x : Exit) (h : x ≠ Exit.running) : x = Exit.returned := by
  cases x
  · rfl
  · exact absurd rfl h

theorem roundOk_of_silent {σ : Type} (Q : List Event → Event → List Event → Prop)
    (cond : σ → Bool) (E : List Event) (st : Step σ)
    (hs : ∀ e ∈ st.events, ∀ h p, Q h e p) (hE : ∀ h, Splits Q h E) :
    RoundOk Q cond E st := by
  unfold RoundOk
  rcases st.ctl with _ | _ | _ <;> simp only
  · split_ifs
    · exact hs
    · exact fun h => splits_append_quiet Q _ _ h hs (hE _)
  · exact fun h => splits_append_quiet Q _ _ h hs (hE _)
  · exact fun h => splits_of_silent Q _ hs h

/-! ## Failures halt the run -/

theorem haltsAt_cons (e m : Event) (rest : List Event) :
    HaltsAt e (m :: rest) ↔
      (isFailure e = true → reports e m = true ∧
        ∀ x ∈ rest, isAcquisition x = false ∧ isClassifier x = false ∧ isError x = false) := by
  unfold HaltsAt
  constructor
  · intro h hf
    obtain ⟨m', rest', heq, hr, hq⟩ := h hf
    simp only [List.cons.injEq] at heq
    obtain ⟨rfl, rfl⟩ := heq
    exact ⟨hr, hq⟩
  · intro h hf
    exact ⟨m, rest, rfl, (h hf).1, (h hf).2⟩

theorem haltsAt_nil (e : Event) : HaltsAt e [] ↔ isFailure e = false := by
  unfold HaltsAt
  constructor
  · intro h
    by_contra hf
    simp only [Bool.not_eq_false] at hf
    obtain ⟨m, rest, heq, _⟩ := h hf
    simp at heq
  · intro h hf
    simp [h] at hf

theorem haltsAt_of_not_failure (e : Event) (post : List Event) (h : isFailure e = false) :
    HaltsAt e post := by
  intro hf
  simp [h] at hf

theorem continuous_round_halts (cfg : Config) (env : Env) (c : Int) :
    RoundOk (fun _ e post => HaltsAt e post) (fun _ => true)
      [Event.call Fn.ei_microphone_inference_end Val.unit]
      (run_nn_continuous_round cfg env c) := by
  unfold run_nn_continuous_round RoundOk
  simp only
  split_ifs <;>
    simp_all [Splits, haltsAt_cons, haltsAt_nil, isFailure, reports, isAcquisition,
      isClassifier, isError] <;>
    simp [HaltsAt, isFailure, EI_IMPULSE_OK]

theorem roundOk_after {σ : Type} (Q : List Event → Event → List Event → Prop)
    (cond : σ → Bool) (E A : List Event) (st : Step σ)
    (hA : ∀ e ∈ A, ∀ h p, Q h e p) (hst : RoundOk Q cond E st) :
    RoundOk Q cond E (Step.after A st) := by
  unfold RoundOk at hst ⊢
  unfold Step.after
  simp only
  rcases hctl : st.ctl with _ | _ | _ <;> simp only [hctl] at hst ⊢
  · by_cases hv : cond st.vars = true
    · simp only [hv, if_true] at hst ⊢
      intro e he
      rcases List.mem_append.mp he with h1 | h1
      · exact hA e h1
      · exact hst e h1
    · simp only [hv] at hst ⊢
      intro h
      rw [List.append_assoc]
      exact splits_append_quiet Q _ _ h hA (hst _)
  · intro h
    rw [List.append_assoc]
    exact splits_append_quiet Q _ _ h hA (hst _)
  · intro h
    exact splits_append_quiet Q _ _ h hA (hst _)

theorem microphone_sample_halts (env : Env) :
    RoundOk (fun _ e post => HaltsAt e post) (fun _ => true)
      [Event.call Fn.ei_microphone_inference_end Val.unit]
      (run_nn_microphone_sample env) := by
  unfold run_nn_microphone_sample RoundOk
  simp only
  split_ifs <;>
    simp_all [Splits, haltsAt_cons, haltsAt_nil, isFailure, reports, isAcquisition,
      isClassifier, isError] <;>
    simp [HaltsAt, isFailure, EI_IMPULSE_OK]

theorem roundOk_delay_block {σ : Type} (Q : List Event → Event → List Event → Prop)
    (cond : σ → Bool) (E : List Event) (delay_ms : Int) (vars : σ) (rest : Env → Step σ)
    (env : Env)
    (h1 : ∀ h p, Q h (Event.print Msg.starting_in_seconds) p)
    (h2 : ∀ h p, Q h (Event.call Fn.ei_sleep_delay (Val.status EI_IMPULSE_OK)) p)
    (h3 : ∀ r, r ≠ EI_IMPULSE_OK → ∀ h, Splits Q h
      ([Event.print Msg.starting_in_seconds, Event.call Fn.ei_sleep_delay (Val.status r)] ++ E))
    (hrest : ∀ env, RoundOk Q cond E (rest env)) :
    RoundOk Q cond E (delay_block delay_ms vars rest env) := by
  unfold delay_block
  simp only
  split_ifs with hd hr
  · unfold RoundOk
    exact h3 _ hr
  · apply roundOk_after _ _ _ _ _ _ (hrest _)
    intro e he h p
    simp only [List.mem_cons, List.mem_singleton, List.not_mem_nil, or_false] at he
    simp only [ne_eq, Decidable.not_not] at hr
    rcases he with rfl | rfl
    · exact h1 h p
    · rw [hr]; exact h2 h p
  · exact hrest _

theorem microphone_round_halts (delay_ms : Int) (env : Env) (u : Unit) :
    RoundOk (fun _ e post => HaltsAt e post) (fun _ => true)
      [Event.call Fn.ei_microphone_inference_end Val.unit]
      (run_nn_microphone_round delay_ms env u) := by
  apply roundOk_delay_block
  · intro h p; exact haltsAt_of_not_failure _ _ rfl
  · intro h p; exact haltsAt_of_not_failure _ _ rfl
  · intro r hr h
    simp [Splits, haltsAt_cons, haltsAt_nil, isFailure]
  · exact microphone_sample_halts

theorem accelerometer_classify_halts (env : Env) :
    RoundOk (fun _ e post => HaltsAt e post) (fun _ => true) []
      (run_nn_accelerometer_classify env) := by
  unfold run_nn_accelerometer_classify RoundOk
  simp only
  split_ifs <;>
    simp_all [Splits, haltsAt_cons, haltsAt_nil, isFailure, reports, isAcquisition,
      isClassifier, isError] <;>
    simp [HaltsAt, isFailure, EI_IMPULSE_OK]

theorem accelerometer_sample_halts (cfg : Config) (env : Env) :
    RoundOk (fun _ e post => HaltsAt e post) (fun _ => true) []
      (run_nn_accelerometer_sample cfg env) := by
  unfold run_nn_accelerometer_sample
  simp only
  split_ifs
  · simp [RoundOk, Splits, haltsAt_cons, haltsAt_nil, isFailure]
  · apply roundOk_after _ _ _ _ _ _ (accelerometer_classify_halts _)
    have hq : ∀ e ∈ [Event.call Fn.ei_user_invoke_stop_before (Val.bool (env.ei_user_invoke_stop 0)),
        Event.print Msg.sampling, Event.call Fn.ei_read_timer_ms Val.unit] ++
        List.replicate cfg.EI_CLASSIFIER_RAW_SAMPLE_COUNT
          (Event.call Fn.ei_inertial_read_data Val.unit) ++
        run_nn_accelerometer_signal env.after_stop, isFailure e = false := by
      by_cases hz : env.after_stop.signal_from_buffer 0 = 0 <;>
        simp [run_nn_accelerometer_signal, hz, isFailure, or_imp, forall_and]
    intro e he h p
    exact haltsAt_of_not_failure _ _ (hq e he)

theorem accelerometer_round_halts (cfg : Config) (delay_ms : Int) (env : Env) (u : Unit) :
    RoundOk (fun _ e post => HaltsAt e post) (fun _ => true) []
      (run_nn_accelerometer_round cfg delay_ms env u) := by
  apply roundOk_delay_block
  · intro h p; exact haltsAt_of_not_failure _ _ rfl
  · intro h p; exact haltsAt_of_not_failure _ _ rfl
  · intro r hr h
    simp [Splits, haltsAt_cons, haltsAt_nil, isFailure]
  · exact accelerometer_sample_halts cfg

set_option maxHeartbeats 1600000 in
theorem camera_classify_halts (debug use_max_baudrate : Bool) (env : Env) :
    RoundOk (fun _ e post => HaltsAt e post) (fun stop => !stop)
      (run_nn_camera_epilogue use_max_baudrate) (run_nn_camera_classify debug env) := by
  unfold run_nn_camera_classify RoundOk run_nn_camera_epilogue
  simp only
  cases use_max_baudrate <;> split_ifs <;>
    simp_all [Splits, haltsAt_cons, haltsAt_nil, isFailure, reports, isAcquisition,
      isClassifier, isError] <;>
    simp [HaltsAt, isFailure, EI_IMPULSE_OK]

theorem camera_capture_halts (debug use_max_baudrate : Bool) (env : Env) :
    RoundOk (fun _ e post => HaltsAt e post) (fun stop => !stop)
      (run_nn_camera_epilogue use_max_baudrate) (run_nn_camera_capture debug env) := by
  unfold run_nn_camera_capture
  simp only
  split_ifs with h1
  · cases use_max_baudrate <;>
      simp [RoundOk, run_nn_camera_epilogue, Splits, haltsAt_cons, haltsAt_nil, isFailure,
        reports, isAcquisition, isClassifier, isError]
  · apply roundOk_after _ _ _ _ _ _ (camera_classify_halts _ _ _)
    intro e he h p
    apply haltsAt_of_not_failure
    revert e
    simp only [Bool.not_eq_false] at h1
    simp [isFailure, h1]

theorem camera_round_halts (debug : Bool) (delay_ms : Int) (use_max_baudrate : Bool)
    (env : Env) (b : Bool) :
    RoundOk (fun _ e post => HaltsAt e post) (fun stop => !stop)
      (run_nn_camera_epilogue use_max_baudrate)
      (run_nn_camera_round debug delay_ms env b) := by
  apply roundOk_delay_block
  · intro h p; exact haltsAt_of_not_failure _ _ rfl
  · intro h p; exact haltsAt_of_not_failure _ _ rfl
  · intro r hr h
    cases use_max_baudrate <;>
      simp [run_nn_camera_epilogue, Splits, haltsAt_cons, haltsAt_nil, isFailure]
  · exact camera_capture_halts debug use_max_baudrate

theorem camera_epilogue_halts (use_max_baudrate : Bool) (h : List Event) :
    Splits (fun _ e post => HaltsAt e post) h (run_nn_camera_epilogue use_max_baudrate) := by
  cases use_max_baudrate <;>
    simp [run_nn_camera_epilogue, Splits, haltsAt_cons, haltsAt_nil, isFailure]

/-- Claim C5: in every variant of `run_nn` and in `run_nn_continuous`, once a
recording or capture fails or a classifier call returns a status other than
`EI_IMPULSE_OK`, the next event is the error message for that call, and no
further error message, acquisition call or classifier call follows in the run. -/
theorem failure_halts_run (cfg : Config) (env : Env) (debug : Bool) (delay_ms : Int)
    (use_max_baudrate : Bool) (fuel : Nat) :
    HaltsAfterFailure (run_nn_accelerometer cfg env debug delay_ms use_max_baudrate fuel).trace ∧
    HaltsAfterFailure (run_nn_microphone cfg env debug delay_ms use_max_baudrate fuel).trace ∧
    HaltsAfterFailure (run_nn_continuous cfg env debug fuel).trace ∧
    HaltsAfterFailure (run_nn_camera cfg env debug delay_ms use_max_baudrate fuel).trace := by
  have hsetup : ∀ e, isSetup e = true → ∀ (h p : List Event), HaltsAt e p := by
    intro e he h p
    apply haltsAt_of_not_failure
    revert he
    unfold isSetup isFailure
    split <;> simp
  refine ⟨?_, ?_, ?_, ?_⟩
  · exact accelerometer_positions (fun _ e post => HaltsAt e post) cfg env debug delay_ms
      use_max_baudrate fuel hsetup (accelerometer_round_halts cfg delay_ms)
  · exact microphone_positions (fun _ e post => HaltsAt e post) cfg env debug delay_ms
      use_max_baudrate fuel hsetup
      (fun h => by simp [Splits, haltsAt_cons, haltsAt_nil, isFailure])
      (microphone_round_halts delay_ms)
  · exact continuous_positions (fun _ e post => HaltsAt e post) cfg env debug fuel hsetup
      (fun h => by simp [Splits, haltsAt_cons, haltsAt_nil, isFailure])
      (continuous_round_halts cfg)
  · exact camera_positions (fun _ e post => HaltsAt e post) cfg env debug delay_ms
      use_max_baudrate fuel hsetup (camera_epilogue_halts use_max_baudrate)
      (camera_round_halts debug delay_ms use_max_baudrate)

/-- Claim C5 at a camera run whose first capture fails. -/
theorem failure_halts_run_witness :
    (run_nn_camera camera_cfg capture_fail_env false 0 false 1).trace =
      [Event.print Msg.settings, Event.call Fn.ei_camera_init (Val.bool true),
        Event.print Msg.taking_photo] ++
      Event.call Fn.ei_camera_capture (Val.bool false) ::
      [Event.print Msg.failed_capture, Event.call Fn.ei_camera_deinit Val.unit] ∧
    HaltsAt (Event.call Fn.ei_camera_capture (Val.bool false))
      [Event.print Msg.failed_capture, Event.call Fn.ei_camera_deinit Val.unit] :=
  ⟨by decide,
    (failure_halts_run camera_cfg capture_fail_env false 0 false 1).2.2.2
      [Event.print Msg.settings, Event.call Fn.ei_camera_init (Val.bool true),
        Event.print Msg.taking_photo]
      (Event.call Fn.ei_camera_capture (Val.bool false))
      [Event.print Msg.failed_capture, Event.call Fn.ei_camera_deinit Val.unit]
      (by decide)⟩

/-! ## A stop request after the predictions -/

/-- Claim C7 fails on the code: when the stop check that follows the
predictions observes a stop request, `run_nn_continuous` and the camera
`run_nn` print the stop message and return without ever calling
`set_state(eiStateIdle)`, whereas the accelerometer `run_nn` calls it on the
same path. -/
theorem stop_request_without_idle_state :
    StopRequest ∈ (run_nn_continuous (window_cfg 4) stop_env false 1).trace ∧
    (run_nn_continuous (window_cfg 4) stop_env false 1).exit = Exit.returned ∧
    Event.call Fn.set_state_idle Val.unit ∉
      (run_nn_continuous (window_cfg 4) stop_env false 1).trace ∧
    StopRequest ∈ (run_nn_camera camera_cfg stop_env false 0 false 1).trace ∧
    (run_nn_camera camera_cfg stop_env false 0 false 1).exit = Exit.returned ∧
    Event.call Fn.set_state_idle Val.unit ∉
      (run_nn_camera camera_cfg stop_env false 0 false 1).trace ∧
    StopRequest ∈ (run_nn_accelerometer small_acc_cfg late_stop_env false 0 false 1).trace ∧
    (run_nn_accelerometer small_acc_cfg late_stop_env false 0 false 1).exit = Exit.returned ∧
    Event.call Fn.set_state_idle Val.unit ∈
      (run_nn_accelerometer small_acc_cfg late_stop_env false 0 false 1).trace := by
  decide

/-- Claim C3: with a configured sample rate other than 16000, the microphone
`run_nn` and `run_nn_continuous` print the frequency error and return; the
error message is the only event, so no collaborator is called. -/
theorem unsupported_frequency_returns (cfg : Config) (env : Env) (debug : Bool)
    (delay_ms : Int) (use_max_baudrate : Bool) (fuel : Nat)
    (hf : cfg.EI_CLASSIFIER_FREQUENCY ≠ 16000) :
    (run_nn_microphone cfg env debug delay_ms use_max_baudrate fuel).trace =
        [Event.print Msg.err_frequency] ∧
    (run_nn_microphone cfg env debug delay_ms use_max_baudrate fuel).exit = Exit.returned ∧
    (run_nn_continuous cfg env debug fuel).trace = [Event.print Msg.err_frequency] ∧
    (run_nn_continuous cfg env debug fuel).exit = Exit.returned := by
  simp [run_nn_microphone, run_nn_continuous, hf]

/-- Claim C3 at a configuration with a sample rate of 8000. -/
theorem unsupported_frequency_returns_witness :
    (⟨8000, 4, 16000, 1, 16000, []⟩ : Config).EI_CLASSIFIER_FREQUENCY ≠ 16000 ∧
    (run_nn_microphone ⟨8000, 4, 16000, 1, 16000, []⟩ quiet_env true 2000 false 5).trace =
        [Event.print Msg.err_frequency] ∧
    (run_nn_microphone ⟨8000, 4, 16000, 1, 16000, []⟩ quiet_env true 2000 false 5).exit = Exit.returned ∧
    (run_nn_continuous ⟨8000, 4, 16000, 1, 16000, []⟩ quiet_env true 5).trace =
        [Event.print Msg.err_frequency] ∧
    (run_nn_continuous ⟨8000, 4, 16000, 1, 16000, []⟩ quiet_env true 5).exit = Exit.returned :=
  ⟨by decide,
    unsupported_frequency_returns ⟨8000, 4, 16000, 1, 16000, []⟩ quiet_env true 2000 false 5
      (by decide)⟩

/-! ## The cadence of the reports -/

theorem report_threshold_eq (cfg : Config) :
    report_threshold cfg = ((cfg.EI_CLASSIFIER_SLICES_PER_MODEL_WINDOW / 2 : Nat) : Int) := by
  unfold report_threshold
  rw [Nat.shiftRight_eq_div_pow, pow_one]

/-- Claim C1: in `run_nn_continuous` with a window of `W ≥ 2` slices, in a run
whose first `fuel` slices are recorded and classified with success and without
a stop request, slice `n` (counted from 1) prints a predictions report exactly
when `n = W + k * (W / 2)` for some `k ≥ 1`. -/
theorem report_cadence (cfg : Config) (env : Env) (debug : Bool) (fuel n : Nat)
    (hf : cfg.EI_CLASSIFIER_FREQUENCY = 16000)
    (hW : 2 ≤ cfg.EI_CLASSIFIER_SLICES_PER_MODEL_WINDOW)
    (hs : SlicesSucceed env fuel) :
    n ∈ report_slices (run_nn_continuous cfg env debug fuel).trace 0 ↔
      (n ≤ fuel ∧ ∃ k, 1 ≤ k ∧
        n = cfg.EI_CLASSIFIER_SLICES_PER_MODEL_WINDOW +
          k * (cfg.EI_CLASSIFIER_SLICES_PER_MODEL_WINDOW / 2)) := by
  rw [continuous_run_reports cfg env debug fuel hf]
  have hh : 1 ≤ cfg.EI_CLASSIFIER_SLICES_PER_MODEL_WINDOW / 2 := by omega
  have hs2 : SlicesSucceed env.after_start fuel := fun k hk => hs k hk
  rw [continuous_loop_reports cfg (cfg.EI_CLASSIFIER_SLICES_PER_MODEL_WINDOW / 2)
    (report_threshold_eq cfg) hh fuel env.after_start 0
    (cfg.EI_CLASSIFIER_SLICES_PER_MODEL_WINDOW / 2 + cfg.EI_CLASSIFIER_SLICES_PER_MODEL_WINDOW)
    (-(cfg.EI_CLASSIFIER_SLICES_PER_MODEL_WINDOW : Int)) hs2 (by omega)
    (by push_cast; omega) n]
  constructor
  · rintro ⟨h1, k, h2⟩
    exact ⟨by omega, k + 1, by omega, by rw [h2]; ring⟩
  · rintro ⟨h1, k, hk, h2⟩
    obtain ⟨j, rfl⟩ : ∃ j, k = j + 1 := ⟨k - 1, by omega⟩
    exact ⟨by omega, j, by rw [h2]; ring⟩

/-- Claim C1 at `W = 4`, slice 6 of a run of 12 successful slices. -/
theorem report_cadence_witness :
    (window_cfg 4).EI_CLASSIFIER_FREQUENCY = 16000 ∧
    2 ≤ (window_cfg 4).EI_CLASSIFIER_SLICES_PER_MODEL_WINDOW ∧
    SlicesSucceed quiet_env 12 ∧
    (6 ∈ report_slices (run_nn_continuous (window_cfg 4) quiet_env false 12).trace 0 ↔
      (6 ≤ 12 ∧ ∃ k, 1 ≤ k ∧ 6 = (window_cfg 4).EI_CLASSIFIER_SLICES_PER_MODEL_WINDOW +
          k * ((window_cfg 4).EI_CLASSIFIER_SLICES_PER_MODEL_WINDOW / 2))) :=
  ⟨rfl, by decide, fun _ _ => ⟨rfl, rfl, rfl⟩,
    report_cadence (window_cfg 4) quiet_env false 12 6 rfl (by decide)
      (fun _ _ => ⟨rfl, rfl, rfl⟩)⟩

/-- Claim C2, amended: in `run_nn_continuous` with a window of `W ≥ 2` slices,
none of the first `W` slices prints a predictions report, in any run. -/
theorem no_report_while_window_fills (cfg : Config) (env : Env) (debug : Bool) (fuel : Nat)
    (hW : 2 ≤ cfg.EI_CLASSIFIER_SLICES_PER_MODEL_WINDOW) :
    ∀ n ∈ report_slices (run_nn_continuous cfg env debug fuel).trace 0,
      cfg.EI_CLASSIFIER_SLICES_PER_MODEL_WINDOW < n := by
  intro n hn
  by_cases hf : cfg.EI_CLASSIFIER_FREQUENCY = 16000
  · rw [continuous_run_reports cfg env debug fuel hf] at hn
    have hh : 1 ≤ cfg.EI_CLASSIFIER_SLICES_PER_MODEL_WINDOW / 2 := by omega
    have := continuous_loop_first_report cfg (cfg.EI_CLASSIFIER_SLICES_PER_MODEL_WINDOW / 2)
      (report_threshold_eq cfg) hh fuel env.after_start 0
      (cfg.EI_CLASSIFIER_SLICES_PER_MODEL_WINDOW / 2 + cfg.EI_CLASSIFIER_SLICES_PER_MODEL_WINDOW)
      (-(cfg.EI_CLASSIFIER_SLICES_PER_MODEL_WINDOW : Int)) (by omega)
      (by push_cast; omega) n hn
    omega
  · simp [run_nn_continuous, hf, report_slices] at hn

/-- Claim C2, amended, at `W = 4` in a run of 12 successful slices. -/
theorem no_report_while_window_fills_witness :
    (2 ≤ (window_cfg 4).EI_CLASSIFIER_SLICES_PER_MODEL_WINDOW) ∧
    ∀ n ∈ report_slices (run_nn_continuous (window_cfg 4) quiet_env false 12).trace 0,
      (window_cfg 4).EI_CLASSIFIER_SLICES_PER_MODEL_WINDOW < n :=
  ⟨by decide, no_report_while_window_fills (window_cfg 4) quiet_env false 12 (by decide)⟩

/-- Claim C2 as stated fails at `W = 1`: the threshold `W >> 1` is 0 and the
first slice, which is one of the first `W` slices, prints a report. -/
theorem report_on_first_slice_of_unit_window :
    1 ≤ (window_cfg 1).EI_CLASSIFIER_SLICES_PER_MODEL_WINDOW ∧
    1 ∈ report_slices (run_nn_continuous (window_cfg 1) quiet_env false 1).trace 0 := by
  decide

/-! ## Cancelled delays and late stop requests -/

theorem delayAndStopAt_of_plain (pre : List Event) (e : Event) (post : List Event)
    (h1 : isCancelledDelay e = false) (h2 : e ≠ StopRequest) : DelayAndStopAt pre e post := by
  constructor
  · intro h; simp [h1] at h
  · intro h; exact absurd h h2

theorem reportPrinted_intro (h mid : List Event)
    (hp : Event.print Msg.predictions ∈ mid)
    (hq : ∀ x ∈ mid, isAcquisition x = false ∧ isClassifier x = false) :
    ReportPrinted (h ++ Event.call Fn.run_classifier (Val.status EI_IMPULSE_OK) :: mid) :=
  ⟨h, mid, rfl, hp, hq⟩

theorem delayAndStop_setup :
    ∀ e, isSetup e = true → ∀ (h p : List Event), DelayAndStopAt h e p := by
  intro e he h p
  apply delayAndStopAt_of_plain
  · revert he
    unfold isSetup isCancelledDelay
    split <;> simp
  · intro heq
    subst heq
    simp [isSetup, StopRequest] at he

theorem accelerometer_classify_delay (env : Env) :
    RoundOk DelayAndStopAt (fun _ => true) [] (run_nn_accelerometer_classify env) := by
  unfold run_nn_accelerometer_classify RoundOk
  simp only
  split_ifs with h1 h2
  · simp [Splits, DelayAndStopAt, StopRequest, isCancelledDelay]
  · simp only [ne_eq, Decidable.not_not] at h1
    simp only [h1, h2, List.append_nil]
    intro h
    simp only [Splits, DelayAndStopAt, StopRequest, isCancelledDelay, List.append_assoc,
      List.cons_append, List.nil_append]
    simp only [reduceCtorEq, false_implies, true_and, and_true, Event.call.injEq, false_and,
      Bool.false_eq_true, imp_self, and_self]
    intro _
    exact reportPrinted_intro h [Event.print Msg.predictions] (by simp)
      (by simp [isAcquisition, isClassifier])
  · simp_all [DelayAndStopAt, StopRequest, isCancelledDelay]

theorem accelerometer_round_delay (cfg : Config) (delay_ms : Int) (env : Env) (u : Unit) :
    RoundOk DelayAndStopAt (fun _ => true) [] (run_nn_accelerometer_round cfg delay_ms env u) := by
  apply roundOk_delay_block
  · intro h p; exact delayAndStopAt_of_plain _ _ _ rfl (by simp [StopRequest])
  · intro h p; exact delayAndStopAt_of_plain _ _ _ rfl (by simp [StopRequest])
  · intro r hr h
    simp [Splits, DelayAndStopAt, StopRequest, isCancelledDelay]
  · intro env
    unfold run_nn_accelerometer_sample
    simp only
    split_ifs
    · simp [RoundOk, Splits, DelayAndStopAt, StopRequest, isCancelledDelay]
    · apply roundOk_after _ _ _ _ _ _ (accelerometer_classify_delay _)
      have hq : ∀ e ∈ [Event.call Fn.ei_user_invoke_stop_before
            (Val.bool (env.ei_user_invoke_stop 0)),
          Event.print Msg.sampling, Event.call Fn.ei_read_timer_ms Val.unit] ++
          List.replicate cfg.EI_CLASSIFIER_RAW_SAMPLE_COUNT
            (Event.call Fn.ei_inertial_read_data Val.unit) ++
          run_nn_accelerometer_signal env.after_stop,
          isCancelledDelay e = false ∧ e ≠ StopRequest := by
        by_cases hz : env.after_stop.signal_from_buffer 0 = 0 <;>
          simp [run_nn_accelerometer_signal, hz, isCancelledDelay, StopRequest, or_imp,
            forall_and]
      intro e he h p
      exact delayAndStopAt_of_plain _ _ _ (hq e he).1 (hq e he).2

theorem microphone_sample_delay (env : Env) :
    RoundOk DelayAndStopAt (fun _ => true)
      [Event.call Fn.ei_microphone_inference_end Val.unit]
      (run_nn_microphone_sample env) := by
  unfold run_nn_microphone_sample RoundOk
  simp only
  split_ifs with h1 h2 h3 h4
  · simp [Splits, DelayAndStopAt, StopRequest, isCancelledDelay]
  · simp [Splits, DelayAndStopAt, StopRequest, isCancelledDelay]
  · simp [Splits, DelayAndStopAt, StopRequest, isCancelledDelay]
  · simp only [ne_eq, Decidable.not_not] at h3
    intro h
    simp only [h3, h4, Splits, DelayAndStopAt, StopRequest, isCancelledDelay,
      List.append_assoc, List.cons_append, List.nil_append]
    simp only [reduceCtorEq, false_implies, true_and, and_true, Event.call.injEq, false_and,
      Bool.false_eq_true, imp_self, and_self]
    intro _
    have := reportPrinted_intro
      (h ++ [Event.call Fn.ei_user_invoke_stop_before (Val.bool (env.ei_user_invoke_stop 0)),
        Event.print Msg.recording,
        Event.call Fn.ei_microphone_inference_reset_buffers Val.unit,
        Event.call Fn.ei_microphone_inference_record
          (Val.bool (env.after_stop.ei_microphone_inference_record 0)),
        Event.print Msg.recording_done])
      [Event.print Msg.predictions] (by simp) (by simp [isAcquisition, isClassifier])
    simpa using this
  · simp_all [DelayAndStopAt, StopRequest, isCancelledDelay]

theorem microphone_round_delay (delay_ms : Int) (env : Env) (u : Unit) :
    RoundOk DelayAndStopAt (fun _ => true)
      [Event.call Fn.ei_microphone_inference_end Val.unit]
      (run_nn_microphone_round delay_ms env u) := by
  apply roundOk_delay_block
  · intro h p; exact delayAndStopAt_of_plain _ _ _ rfl (by simp [StopRequest])
  · intro h p; exact delayAndStopAt_of_plain _ _ _ rfl (by simp [StopRequest])
  · intro r hr h
    simp [Splits, DelayAndStopAt, StopRequest, isCancelledDelay, isAcquisition, isClassifier]
  · exact microphone_sample_delay

theorem splits_plain (A E h : List Event)
    (hA : ∀ e ∈ A, isCancelledDelay e = false ∧ e ≠ StopRequest)
    (hE : ∀ h, Splits DelayAndStopAt h E) : Splits DelayAndStopAt h (A ++ E) :=
  splits_append_quiet DelayAndStopAt A E h
    (fun e he h p => delayAndStopAt_of_plain h e p (hA e he).1 (hA e he).2) (hE _)

theorem camera_epilogue_delay (use_max_baudrate : Bool) (h : List Event) :
    Splits DelayAndStopAt h (run_nn_camera_epilogue use_max_baudrate) := by
  have := splits_plain (run_nn_camera_epilogue use_max_baudrate) [] h
    (by cases use_max_baudrate <;>
      simp [run_nn_camera_epilogue, isCancelledDelay, StopRequest])
    (by simp [Splits])
  simpa using this

theorem camera_epilogue_quiet (use_max_baudrate : Bool) :
    ∀ x ∈ run_nn_camera_epilogue use_max_baudrate,
      isAcquisition x = false ∧ isClassifier x = false := by
  cases use_max_baudrate <;> simp [run_nn_camera_epilogue, isAcquisition, isClassifier]

theorem camera_stop_delay (use_max_baudrate : Bool) (A mid : List Event)
    (hA : A = Event.call Fn.run_classifier (Val.status EI_IMPULSE_OK) :: mid)
    (hp : Event.print Msg.predictions ∈ mid)
    (hq : ∀ x ∈ mid, isAcquisition x = false ∧ isClassifier x = false)
    (hplain : ∀ e ∈ A, isCancelledDelay e = false ∧ e ≠ StopRequest) (h : List Event) :
    Splits DelayAndStopAt h
      (A ++ [StopRequest, Event.print Msg.stopped_by_user] ++
        run_nn_camera_epilogue use_max_baudrate) := by
  rw [List.append_assoc]
  apply splits_append_quiet DelayAndStopAt A _ h
    (fun e he h p => delayAndStopAt_of_plain h e p (hplain e he).1 (hplain e he).2)
  simp only [List.cons_append, List.nil_append, Splits]
  refine ⟨⟨?_, ?_⟩, ?_, ?_⟩
  · intro hc; simp [StopRequest, isCancelledDelay] at hc
  · intro _
    rw [hA]
    exact reportPrinted_intro h mid hp hq
  · exact delayAndStopAt_of_plain _ _ _ rfl (by simp [StopRequest])
  · exact camera_epilogue_delay _ _

theorem camera_classify_delay (debug use_max_baudrate : Bool) (env : Env) :
    RoundOk DelayAndStopAt (fun stop => !stop) (run_nn_camera_epilogue use_max_baudrate)
      (run_nn_camera_classify debug env) := by
  unfold run_nn_camera_classify
  simp only
  by_cases h1 : env.run_classifier 0 = EI_IMPULSE_OK
  · simp only [h1, ne_eq, not_true_eq_false, if_false]
    cases debug
    · simp only [Bool.false_eq_true, if_false]
      by_cases h6 : env.after_classify.ei_user_invoke_stop 0 = true
      · simp only [h6, if_true, RoundOk, Bool.not_true, Bool.false_eq_true, if_false]
        intro h
        exact camera_stop_delay use_max_baudrate
          [Event.call Fn.run_classifier (Val.status EI_IMPULSE_OK), Event.print Msg.predictions]
          [Event.print Msg.predictions] rfl (by simp)
          (by simp [isAcquisition, isClassifier]) (by simp [isCancelledDelay, StopRequest]) h
      · simp only [h6, if_false, RoundOk, Bool.not_false, if_true]
        simp only [Bool.not_eq_true] at h6
        simp [h6, isCancelledDelay, StopRequest, DelayAndStopAt]
    · simp only [if_true]
      by_cases h3 : env.after_classify.ei_malloc 0 = false
      · simp only [h3, if_true, RoundOk]
        intro h
        have := splits_plain
          [Event.call Fn.run_classifier (Val.status EI_IMPULSE_OK),
            Event.call Fn.ei_malloc (Val.bool false), Event.print Msg.err_alloc_jpg] [] h
          (by simp [isCancelledDelay, StopRequest]) (by simp [Splits])
        simpa using this
      · simp only [Bool.not_eq_false] at h3
        simp only [h3, Bool.true_eq_false, if_false]
        by_cases h4 : env.after_classify.after_malloc.encode_bw_signal_as_jpg 0 = 0
        · simp only [h4, ne_eq, not_true_eq_false, if_false]
          by_cases h5 : env.after_classify.after_malloc.after_encode.ei_user_invoke_stop 0 = true
          · simp only [h5, if_true, RoundOk, Bool.not_true, Bool.false_eq_true, if_false]
            intro h
            exact camera_stop_delay use_max_baudrate
              [Event.call Fn.run_classifier (Val.status EI_IMPULSE_OK),
                Event.call Fn.ei_malloc (Val.bool true),
                Event.print Msg.begin_output,
                Event.call Fn.encode_bw_signal_as_jpg (Val.status 0),
                Event.print Msg.framebuffer,
                Event.call Fn.base64_encode Val.unit,
                Event.print Msg.crlf,
                Event.call Fn.ei_free Val.unit,
                Event.print Msg.predictions,
                Event.print Msg.end_output]
              [Event.call Fn.ei_malloc (Val.bool true),
                Event.print Msg.begin_output,
                Event.call Fn.encode_bw_signal_as_jpg (Val.status 0),
                Event.print Msg.framebuffer,
                Event.call Fn.base64_encode Val.unit,
                Event.print Msg.crlf,
                Event.call Fn.ei_free Val.unit,
                Event.print Msg.predictions,
                Event.print Msg.end_output] rfl (by simp)
              (by simp [isAcquisition, isClassifier])
              (by simp [isCancelledDelay, StopRequest]) h
          · simp only [h5, if_false, RoundOk, Bool.not_false, if_true]
            simp only [Bool.not_eq_true] at h5
            simp [h5, isCancelledDelay, StopRequest, DelayAndStopAt]
        · simp only [h4, ne_eq, not_false_eq_true, if_true, RoundOk]
          exact fun h => splits_plain _ _ h (by simp [isCancelledDelay, StopRequest])
            (camera_epilogue_delay _)
  · simp only [h1, ne_eq, not_false_eq_true, if_true, RoundOk]
    exact fun h => splits_plain _ _ h (by simp [isCancelledDelay, StopRequest])
      (camera_epilogue_delay _)

theorem camera_round_delay (debug : Bool) (delay_ms : Int) (use_max_baudrate : Bool)
    (env : Env) (b : Bool) :
    RoundOk DelayAndStopAt (fun stop => !stop) (run_nn_camera_epilogue use_max_baudrate)
      (run_nn_camera_round debug delay_ms env b) := by
  apply roundOk_delay_block
  · intro h p; exact delayAndStopAt_of_plain _ _ _ rfl (by simp [StopRequest])
  · intro h p; exact delayAndStopAt_of_plain _ _ _ rfl (by simp [StopRequest])
  · intro r hr h
    simp only [List.cons_append, List.nil_append, Splits]
    refine ⟨delayAndStopAt_of_plain _ _ _ rfl (by simp [StopRequest]), ⟨?_, ?_⟩, ?_⟩
    · intro _
      exact camera_epilogue_quiet use_max_baudrate
    · intro hc; simp [StopRequest] at hc
    · exact camera_epilogue_delay _ _
  · intro env
    unfold run_nn_camera_capture
    simp only
    split_ifs
    · simp only [RoundOk]
      exact fun h => splits_plain _ _ h (by simp [isCancelledDelay, StopRequest])
        (camera_epilogue_delay _)
    · apply roundOk_after _ _ _ _ _ _ (camera_classify_delay _ _ _)
      intro e he h p
      apply delayAndStopAt_of_plain <;> revert e <;> simp [isCancelledDelay, StopRequest]

/-- Claim C8: in every variant of `run_nn`, when `ei_sleep(delay_ms)` returns a
status other than `EI_IMPULSE_OK` no sample read, recording, capture or
classifier call follows in the run, and when the stop check that follows the
predictions observes a stop request, the run so far ends with a successful
classification followed by its predictions report. -/
theorem delay_cancel_and_late_stop (cfg : Config) (env : Env) (debug : Bool) (delay_ms : Int)
    (use_max_baudrate : Bool) (fuel : Nat) :
    DelayAndStopOrdered
      (run_nn_accelerometer cfg env debug delay_ms use_max_baudrate fuel).trace ∧
    DelayAndStopOrdered
      (run_nn_microphone cfg env debug delay_ms use_max_baudrate fuel).trace ∧
    DelayAndStopOrdered
      (run_nn_camera cfg env debug delay_ms use_max_baudrate fuel).trace := by
  refine ⟨?_, ?_, ?_⟩
  · exact accelerometer_positions DelayAndStopAt cfg env debug delay_ms use_max_baudrate fuel
      delayAndStop_setup (accelerometer_round_delay cfg delay_ms)
  · exact microphone_positions DelayAndStopAt cfg env debug delay_ms use_max_baudrate fuel
      delayAndStop_setup
      (fun h => by simp [Splits, DelayAndStopAt, StopRequest, isCancelledDelay])
      (microphone_round_delay delay_ms)
  · exact camera_positions DelayAndStopAt cfg env debug delay_ms use_max_baudrate fuel
      delayAndStop_setup (camera_epilogue_delay use_max_baudrate)
      (camera_round_delay debug delay_ms use_max_baudrate)

/-- Claim C8 at a camera run whose first delay is cancelled. -/
theorem delay_cancel_and_late_stop_witness :
    (run_nn_camera camera_cfg cancel_env false 2000 false 1).trace =
      [Event.print Msg.settings, Event.call Fn.ei_camera_init (Val.bool true),
        Event.print Msg.starting_in_seconds] ++
      Event.call Fn.ei_sleep_delay (Val.status (-1)) ::
      [Event.call Fn.ei_camera_deinit Val.unit] ∧
    DelayAndStopAt
      [Event.print Msg.settings, Event.call Fn.ei_camera_init (Val.bool true),
        Event.print Msg.starting_in_seconds]
      (Event.call Fn.ei_sleep_delay (Val.status (-1)))
      [Event.call Fn.ei_camera_deinit Val.unit] :=
  ⟨by decide,
    (delay_cancel_and_late_stop camera_cfg cancel_env false 2000 false 1).2.2
      [Event.print Msg.settings, Event.call Fn.ei_camera_init (Val.bool true),
        Event.print Msg.starting_in_seconds]
      (Event.call Fn.ei_sleep_delay (Val.status (-1)))
      [Event.call Fn.ei_camera_deinit Val.unit]
      (by decide)⟩

/-! ## Start and end of the audio sampling in continuous mode -/

theorem continuous_round_events (cfg : Config) (env : Env) (c : Int) :
    (∀ e ∈ (run_nn_continuous_round cfg env c).events, isStart e = false ∧ isEnd e = false) ∧
    (run_nn_continuous_round cfg env c).ctl ≠ Ctl.ret := by
  rcases continuous_round_cases cfg env c with ⟨_, hr⟩ | ⟨_, _, hr⟩ | ⟨_, _, _, hr⟩ |
    ⟨_, _, _, hr⟩ <;> rw [hr] <;> constructor <;> try simp [isStart, isEnd]
  all_goals
    rintro a (⟨_, rfl⟩ | rfl | rfl) <;> simp

theorem continuous_loop_events (cfg : Config) :
    ∀ (fuel : Nat) (env : Env) (c : Int),
      (∀ e ∈ (while_loop (fun _ => true) (run_nn_continuous_round cfg) fuel env c).trace,
        isStart e = false ∧ isEnd e = false) ∧
      (while_loop (fun _ => true) (run_nn_continuous_round cfg) fuel env c).stop ≠
        LoopEnd.returned := by
  intro fuel
  induction fuel with
  | zero => intro env c; simp [while_loop]
  | succ n ih =>
    intro env c
    have hr := continuous_round_events cfg env c
    simp only [while_loop, if_true]
    rcases hctl : (run_nn_continuous_round cfg env c).ctl with _ | _ | _
    · simp only
      refine ⟨?_, (ih _ _).2⟩
      intro e he
      rcases List.mem_append.mp he with h1 | h1
      · exact hr.1 e h1
      · exact (ih _ _).1 e h1
    · simp only
      exact ⟨hr.1, by simp⟩
    · exact absurd hctl hr.2

theorem continuous_loop_ends (cfg : Config) :
    ∀ (n : Nat) (env : Env) (c : Int) (fuel : Nat), LoopEndsAt env n → n < fuel →
      (while_loop (fun _ => true) (run_nn_continuous_round cfg) fuel env c).stop =
        LoopEnd.left := by
  intro n
  induction n with
  | zero =>
    intro env c fuel hend hlt
    obtain ⟨f, rfl⟩ : ∃ f, fuel = f + 1 := ⟨fuel - 1, by omega⟩
    simp only [while_loop, if_true]
    rcases continuous_round_cases cfg env c with ⟨_, hr⟩ | ⟨_, _, hr⟩ | ⟨_, _, _, hr⟩ |
      ⟨h1, h2, h3, hr⟩ <;> rw [hr]
    · rcases hend with h | h | h
      · simp [h1] at h
      · exact absurd h2 h
      · simp [h3] at h
  | succ m ih =>
    intro env c fuel hend hlt
    obtain ⟨f, rfl⟩ : ∃ f, fuel = f + 1 := ⟨fuel - 1, by omega⟩
    simp only [while_loop, if_true]
    rcases continuous_round_cases cfg env c with ⟨_, hr⟩ | ⟨_, _, hr⟩ | ⟨_, _, _, hr⟩ |
      ⟨h1, h2, h3, hr⟩ <;> rw [hr]
    · simp only
      exact ih _ _ f hend (by omega)

/-- Claim C9: in a run of `run_nn_continuous` that passes the sample-rate
check, `ei_microphone_inference_start` is called once, in front of the loop,
and when the function returns `ei_microphone_inference_end` is its last event
and is called once; the function returns as soon as a recording fails, a
classification fails or a stop request is observed. -/
theorem continuous_start_and_end (cfg : Config) (env : Env) (debug : Bool)
    (hf : cfg.EI_CLASSIFIER_FREQUENCY = 16000) :
    (∀ fuel, (run_nn_continuous cfg env debug fuel).exit = Exit.returned →
      ∃ mid, (run_nn_continuous cfg env debug fuel).trace =
        [Event.print Msg.settings, Event.print Msg.starting_inferencing,
         Event.call Fn.run_classifier_init Val.unit,
         Event.call Fn.ei_microphone_inference_start Val.unit] ++ mid ++
        [Event.call Fn.ei_microphone_inference_end Val.unit] ∧
        ∀ e ∈ mid, isStart e = false ∧ isEnd e = false) ∧
    (∀ n fuel, LoopEndsAt env n → n < fuel →
      (run_nn_continuous cfg env debug fuel).exit = Exit.returned) := by
  constructor
  · intro fuel hx
    have hl := continuous_loop_events cfg fuel env.after_start
      (-(cfg.EI_CLASSIFIER_SLICES_PER_MODEL_WINDOW : Int))
    unfold run_nn_continuous at hx ⊢
    simp only [hf, ne_eq, not_true_eq_false, if_false, Run.after, after_loop] at hx ⊢
    rcases hs : (while_loop (fun _ => true) (run_nn_continuous_round cfg) fuel env.after_start
      (-(cfg.EI_CLASSIFIER_SLICES_PER_MODEL_WINDOW : Int))).stop with _ | _ | _
    · refine ⟨_, ?_, hl.1⟩
      simp
    · exact absurd hs hl.2
    · simp [hs] at hx
  · intro n fuel hend hlt
    have hl := continuous_loop_ends cfg n env.after_start
      (-(cfg.EI_CLASSIFIER_SLICES_PER_MODEL_WINDOW : Int)) fuel hend hlt
    unfold run_nn_continuous
    simp [hf, Run.after, after_loop, hl]

/-- Claim C9 at a run whose first stop check observes a stop request. -/
theorem continuous_start_and_end_witness :
    (window_cfg 4).EI_CLASSIFIER_FREQUENCY = 16000 ∧
    ((∀ fuel, (run_nn_continuous (window_cfg 4) stop_env false fuel).exit = Exit.returned →
      ∃ mid, (run_nn_continuous (window_cfg 4) stop_env false fuel).trace =
        [Event.print Msg.settings, Event.print Msg.starting_inferencing,
         Event.call Fn.run_classifier_init Val.unit,
         Event.call Fn.ei_microphone_inference_start Val.unit] ++ mid ++
        [Event.call Fn.ei_microphone_inference_end Val.unit] ∧
        ∀ e ∈ mid, isStart e = false ∧ isEnd e = false) ∧
    (∀ n fuel, LoopEndsAt stop_env n → n < fuel →
      (run_nn_continuous (window_cfg 4) stop_env false fuel).exit = Exit.returned)) :=
  ⟨rfl, continuous_start_and_end (window_cfg 4) stop_env false rfl⟩

/-! ## The accelerometer staging buffer -/

theorem acc_callback_fold {α : Type} (buffer : Nat → α) (st : AccState α) :
    ∀ n, st.acc_sample_count + n ≤ 2 ^ 32 →
      ((List.range n).foldl (acc_store buffer) st).acc_sample_count = st.acc_sample_count ∧
      ((List.range n).foldl (acc_store buffer) st).stores =
        st.stores ++ (List.range n).map (fun i => st.acc_sample_count + i) ∧
      (∀ i, i < n →
        ((List.range n).foldl (acc_store buffer) st).acc_buf (st.acc_sample_count + i) =
          buffer i) ∧
      (∀ ix, ix < st.acc_sample_count →
        ((List.range n).foldl (acc_store buffer) st).acc_buf ix = st.acc_buf ix) := by
  intro n
  induction n with
  | zero => intro _; simp
  | succ m ih =>
    intro hb
    obtain ⟨h1, h2, h3, h4⟩ := ih (by omega)
    have hmod : (st.acc_sample_count + m) % 2 ^ 32 = st.acc_sample_count + m :=
      Nat.mod_eq_of_lt (by omega)
    rw [List.range_succ, List.foldl_append]
    simp only [List.foldl_cons, List.foldl_nil, acc_store, h1, hmod, h2, List.map_append,
      List.map_cons, List.map_nil, List.append_assoc]
    refine ⟨trivial, trivial, ?_, ?_⟩
    · intro i hi
      by_cases him : i = m
      · subst him; simp
      · rw [Function.update_noteq (by omega)]
        exact h3 i (by omega)
    · intro ix hix
      rw [Function.update_noteq (by omega)]
      exact h4 ix hix

theorem run_sampler_fold {α : Type} (cfg : Config) (samples : Nat → Nat → α) (byteLength : Nat)
    (st : AccState α)
    (hlen : byteLength / 4 = cfg.EI_CLASSIFIER_RAW_SAMPLES_PER_FRAME) :
    ∀ k, k * cfg.EI_CLASSIFIER_RAW_SAMPLES_PER_FRAME ≤ 2 ^ 32 →
      ((List.range k).foldl (sampler_step cfg samples byteLength)
        { st with acc_sample_count := 0 }).acc_sample_count =
          k * cfg.EI_CLASSIFIER_RAW_SAMPLES_PER_FRAME ∧
      ((List.range k).foldl (sampler_step cfg samples byteLength)
        { st with acc_sample_count := 0 }).stores =
          st.stores ++ List.range (k * cfg.EI_CLASSIFIER_RAW_SAMPLES_PER_FRAME) ∧
      (∀ i j, i < k → j < cfg.EI_CLASSIFIER_RAW_SAMPLES_PER_FRAME →
        ((List.range k).foldl (sampler_step cfg samples byteLength)
          { st with acc_sample_count := 0 }).acc_buf
            (i * cfg.EI_CLASSIFIER_RAW_SAMPLES_PER_FRAME + j) = samples i j) := by
  intro k
  induction k with
  | zero => intro _; simp
  | succ m ih =>
    intro hb
    have hm : m * cfg.EI_CLASSIFIER_RAW_SAMPLES_PER_FRAME +
        cfg.EI_CLASSIFIER_RAW_SAMPLES_PER_FRAME ≤ 2 ^ 32 := by
      rw [Nat.succ_mul] at hb; exact hb
    obtain ⟨h1, h2, h3⟩ := ih (by omega)
    rw [List.range_succ, List.foldl_append]
    simp only [List.foldl_cons, List.foldl_nil]
    generalize hst : (List.range m).foldl (sampler_step cfg samples byteLength)
      { st with acc_sample_count := 0 } = stm at h1 h2 h3
    obtain ⟨c1, c2, c3, c4⟩ := acc_callback_fold (samples m) stm
      cfg.EI_CLASSIFIER_RAW_SAMPLES_PER_FRAME (by rw [h1]; exact hm)
    simp only [sampler_step, ei_inertial_read_data, acc_data_callback, hlen, c1, c2, h1, h2]
    refine ⟨by rw [Nat.succ_mul], ?_, ?_⟩
    · rw [List.append_assoc, Nat.succ_mul, List.range_add]
    · intro i j hi hj
      by_cases him : i = m
      · subst him
        have := c3 j hj
        rw [h1] at this
        exact this
      · have hlt : i * cfg.EI_CLASSIFIER_RAW_SAMPLES_PER_FRAME + j <
            m * cfg.EI_CLASSIFIER_RAW_SAMPLES_PER_FRAME := by
          have : (i + 1) * cfg.EI_CLASSIFIER_RAW_SAMPLES_PER_FRAME ≤
              m * cfg.EI_CLASSIFIER_RAW_SAMPLES_PER_FRAME :=
            Nat.mul_le_mul_right _ (by omega)
          rw [Nat.succ_mul] at this
          omega
        rw [c4 _ (by rw [h1]; exact hlt)]
        exact h3 i j (by omega) hj

/-- Claim C10: in one sampling round of the accelerometer `run_nn`, with a
frame size of `EI_CLASSIFIER_RAW_SAMPLE_COUNT * EI_CLASSIFIER_RAW_SAMPLES_PER_FRAME`
(an `int` constant) and reads that deliver `EI_CLASSIFIER_RAW_SAMPLES_PER_FRAME`
floats each, the indices of `acc_buf` stored to are 0, 1, ... up to the frame
size, each once and in this order, and afterwards `acc_buf[k * SPF + j]` is
float `j` of sample `k`. -/
theorem sampler_fills_acc_buf {α : Type} (cfg : Config) (samples : Nat → Nat → α)
    (byteLength : Nat) (st : AccState α)
    (hframe : cfg.EI_CLASSIFIER_DSP_INPUT_FRAME_SIZE =
      cfg.EI_CLASSIFIER_RAW_SAMPLE_COUNT * cfg.EI_CLASSIFIER_RAW_SAMPLES_PER_FRAME)
    (hlen : byteLength / 4 = cfg.EI_CLASSIFIER_RAW_SAMPLES_PER_FRAME)
    (hint : cfg.EI_CLASSIFIER_DSP_INPUT_FRAME_SIZE < 2 ^ 31) :
    (run_sampler cfg samples byteLength st).stores =
      st.stores ++ List.range cfg.EI_CLASSIFIER_DSP_INPUT_FRAME_SIZE ∧
    (∀ ix ∈ List.range cfg.EI_CLASSIFIER_DSP_INPUT_FRAME_SIZE,
      ix < cfg.EI_CLASSIFIER_DSP_INPUT_FRAME_SIZE) ∧
    (∀ k j, k < cfg.EI_CLASSIFIER_RAW_SAMPLE_COUNT →
      j < cfg.EI_CLASSIFIER_RAW_SAMPLES_PER_FRAME →
      (run_sampler cfg samples byteLength st).acc_buf
        (k * cfg.EI_CLASSIFIER_RAW_SAMPLES_PER_FRAME + j) = samples k j) := by
  obtain ⟨_, h2, h3⟩ := run_sampler_fold cfg samples byteLength st hlen
    cfg.EI_CLASSIFIER_RAW_SAMPLE_COUNT (by rw [← hframe]; omega)
  refine ⟨?_, ?_, ?_⟩
  · rw [hframe]; exact h2
  · intro ix hix; exact List.mem_range.mp hix
  · exact h3

/-- Claim C10 at 2 samples of 3 floats, sample `k` holding `10 * k + j`. -/
theorem sampler_fills_acc_buf_witness :
    (small_acc_cfg.EI_CLASSIFIER_DSP_INPUT_FRAME_SIZE =
      small_acc_cfg.EI_CLASSIFIER_RAW_SAMPLE_COUNT *
        small_acc_cfg.EI_CLASSIFIER_RAW_SAMPLES_PER_FRAME) ∧
    (12 / 4 = small_acc_cfg.EI_CLASSIFIER_RAW_SAMPLES_PER_FRAME) ∧
    (small_acc_cfg.EI_CLASSIFIER_DSP_INPUT_FRAME_SIZE < 2 ^ 31) ∧
    (run_sampler small_acc_cfg (fun k j => 10 * k + j) 12 ⟨fun _ => 0, 0, []⟩).stores =
      [] ++ List.range small_acc_cfg.EI_CLASSIFIER_DSP_INPUT_FRAME_SIZE ∧
    (∀ ix ∈ List.range small_acc_cfg.EI_CLASSIFIER_DSP_INPUT_FRAME_SIZE,
      ix < small_acc_cfg.EI_CLASSIFIER_DSP_INPUT_FRAME_SIZE) ∧
    (∀ k j, k < small_acc_cfg.EI_CLASSIFIER_RAW_SAMPLE_COUNT →
      j < small_acc_cfg.EI_CLASSIFIER_RAW_SAMPLES_PER_FRAME →
      (run_sampler small_acc_cfg (fun k j => 10 * k + j) 12 ⟨fun _ => 0, 0, []⟩).acc_buf
        (k * small_acc_cfg.EI_CLASSIFIER_RAW_SAMPLES_PER_FRAME + j) = 10 * k + j) :=
  ⟨by decide, by decide, by decide,
    sampler_fills_acc_buf small_acc_cfg (fun k j => 10 * k + j) 12 ⟨fun _ => 0, 0, []⟩
      (by decide) (by decide) (by decide)⟩

/-! ## Two defects -/

/-- Claim C4 fails on the code: in the camera `run_nn` started by
`run_nn_debug("y")`, when `ei_malloc` returns a null pointer in the first round
the function returns from inside the loop; the maximum baud rate was set and
the default baud rate is never restored (and the camera is not released). -/
theorem alloc_failure_keeps_max_baudrate :
    (run_nn_debug_camera camera_cfg alloc_fail_env ['y'] 1).exit = Exit.returned ∧
    (run_nn_debug_camera camera_cfg alloc_fail_env ['y'] 1).trace =
      [Event.print Msg.settings,
       Event.call Fn.ei_camera_init (Val.bool true),
       Event.print Msg.ok,
       Event.call Fn.ei_sleep_100 Val.unit,
       Event.call Fn.set_max_data_output_baudrate Val.unit,
       Event.print Msg.taking_photo,
       Event.call Fn.ei_camera_capture (Val.bool true),
       Event.call Fn.run_classifier (Val.status 0),
       Event.call Fn.ei_malloc (Val.bool false),
       Event.print Msg.err_alloc_jpg] ∧
    Event.call Fn.set_default_data_output_baudrate Val.unit ∉
      (run_nn_debug_camera camera_cfg alloc_fail_env ['y'] 1).trace := by
  decide

/-- Claim C6 fails on the code: in the accelerometer `run_nn`, when
`numpy::signal_from_buffer` returns an error the message is printed, but
`run_classifier` is called all the same and the next round is started. -/
theorem signal_error_does_not_halt :
    (run_nn_accelerometer small_acc_cfg signal_fail_env false 0 false 2).trace =
      [Event.print Msg.settings,
       Event.print Msg.starting_inferencing,
       Event.call Fn.ei_inertial_sample_start Val.unit,
       Event.call Fn.ei_user_invoke_stop_before (Val.bool false),
       Event.print Msg.sampling,
       Event.call Fn.ei_read_timer_ms Val.unit,
       Event.call Fn.ei_inertial_read_data Val.unit,
       Event.call Fn.ei_inertial_read_data Val.unit,
       Event.call Fn.signal_from_buffer (Val.status (-1)),
       Event.print Msg.err_signal_from_buffer,
       Event.call Fn.run_classifier (Val.status 0),
       Event.print Msg.predictions,
       Event.call Fn.ei_user_invoke_stop_after (Val.bool false),
       Event.call Fn.ei_user_invoke_stop_before (Val.bool false),
       Event.print Msg.sampling,
       Event.call Fn.ei_read_timer_ms Val.unit,
       Event.call Fn.ei_inertial_read_data Val.unit,
       Event.call Fn.ei_inertial_read_data Val.unit,
       Event.call Fn.signal_from_buffer (Val.status (-1)),
       Event.print Msg.err_signal_from_buffer,
       Event.call Fn.run_classifier (Val.status 0),
       Event.print Msg.predictions,
       Event.call Fn.ei_user_invoke_stop_after (Val.bool false)] ∧
    (run_nn_accelerometer small_acc_cfg signal_fail_env false 0 false 2).exit = Exit.running := by
  decide

end EiRunImpulse
